import Mathlib

set_option maxHeartbeats 1000000

namespace MassAw

deriving instance DecidableEq for Except

/-! Shallow embedding of the mass-aw engine (Another World interpreter).

Part 1: the bank-entry decompressor from src/engine/src/resources.rs
(`struct Decoder` and its methods).  Machine integers are modelled as
`Nat` (unsigned) and `Int` (signed) with explicit wrap-arounds where the
Rust types wrap; fallible operations return `Except`, with a dedicated
error constructor standing for a Rust panic. -/

/-- Error kinds of the engine, after `enum Error` in src/src/error.rs
(the engine's own error module is identical in shape; the payload of the
I/O variant is irrelevant here and dropped). -/
inductive Error where
  | ioError
  | InvalidMemEntryState (v : Nat)
  | InvalidBankId (v : Nat)
  | CrcCheckFailed
  | InputBufferDrained
deriving DecidableEq

/-- Result of a fallible decoder operation: either a returned `Error`
value or a Rust panic (from a failed `expect`). -/
inductive DecErr where
  | fail (e : Error)
  | panicked
deriving DecidableEq

/-- Decompressor state, after `struct Decoder` in resources.rs.
`crc` and `check` are u32 values, `data_size` an i32, `size` a u16,
`output_cursor` and `input_cursor` usize values. -/
structure Decoder where
  crc : Nat
  check : Nat
  data_size : Int
  size : Nat
  output : List Nat
  output_cursor : Nat
  input : List Nat
  input_cursor : Nat
deriving DecidableEq

/-- Wrapping decrement of a usize, as `usize::wrapping_sub(1)`. -/
def usizeSub1 (n : Nat) : Nat := (n + (2 ^ 64 - 1)) % 2 ^ 64

/-- Reinterpret a u32 bit pattern as an i32, as `v as i32` in Rust. -/
def toI32 (v : Nat) : Int := if v < 2 ^ 31 then (v : Int) else (v : Int) - 2 ^ 32

/-- `Decoder::new`: output buffer of `entry.size` zero bytes, output
cursor at `size - 1` (usize arithmetic), input cursor at `packed_size`. -/
def Decoder.new (size packed_size : Nat) (input : List Nat) : Decoder :=
  { crc := 0
    check := 0
    data_size := 0
    size := 0
    output := List.replicate size 0
    output_cursor := usizeSub1 size
    input := input
    input_cursor := packed_size }

/-- `Decoder::read_rev_u32`: step the input cursor back by four and read
a big-endian u32 there; `InputBufferDrained` when fewer than four bytes
remain. -/
def read_rev_u32 (s : Decoder) : Except DecErr (Nat × Decoder) :=
  if s.input_cursor < 4 then .error (.fail .InputBufferDrained)
  else
    let c := s.input_cursor - 4
    if c + 4 ≤ s.input.length then
      .ok ((s.input.getD c 0 % 256) * 2 ^ 24 + (s.input.getD (c + 1) 0 % 256) * 2 ^ 16 +
            (s.input.getD (c + 2) 0 % 256) * 2 ^ 8 + s.input.getD (c + 3) 0 % 256,
        { s with input_cursor := c })
    else .error (.fail .InputBufferDrained)

/-- `Decoder::rcr`: rotate the check register right through the carry
flag, returning the shifted-out bit. -/
def rcr (s : Decoder) (cf : Bool) : Bool × Decoder :=
  let rcf := s.check % 2 == 1
  let check := s.check / 2
  (rcf, { s with check := if cf then check ||| 0x80000000 else check })

/-- `Decoder::next_chunk`: draw one bit; when the register is exhausted,
refill it from the next reverse u32 and xor the refill into the crc. -/
def next_chunk (s : Decoder) : Except DecErr (Bool × Decoder) :=
  let p := rcr s false
  if p.2.check = 0 then
    match read_rev_u32 p.2 with
    | .error e => .error e
    | .ok (v, s) => .ok (rcr { s with check := v, crc := s.crc ^^^ v } true)
  else .ok p

/-- Accumulating loop body of `Decoder::get_code`; the accumulator is a
u16 shifted left one bit per chunk (MSB-first). -/
def get_code_aux (c : Nat) : Nat → Decoder → Except DecErr (Nat × Decoder)
  | 0, s => .ok (c, s)
  | n + 1, s =>
    match next_chunk s with
    | .error e => .error e
    | .ok (b, s) => get_code_aux (c * 2 % 65536 + if b then 1 else 0) n s

/-- `Decoder::get_code`: read `num_chunks` bits MSB-first. -/
def get_code (num_chunks : Nat) (s : Decoder) : Except DecErr (Nat × Decoder) :=
  get_code_aux 0 num_chunks s

/-- One backward output write (shared tail of `dec_unk1`/`dec_unk2`):
write a byte at the output cursor (panic when out of bounds, as the
source's `expect`) and step the cursor back with usize wrapping. -/
def write_byte (s : Decoder) (v : Nat) : Except DecErr Decoder :=
  if s.output_cursor < s.output.length then
    .ok { s with
            output := s.output.set s.output_cursor (v % 256)
            output_cursor := usizeSub1 s.output_cursor }
  else .error .panicked

/-- The byte loop of `Decoder::dec_unk1`: each byte is `get_code(8)`. -/
def literal_loop : Nat → Decoder → Except DecErr Decoder
  | 0, s => .ok s
  | n + 1, s =>
    match get_code 8 s with
    | .error e => .error e
    | .ok (v, s) =>
      match write_byte s v with
      | .error e => .error e
      | .ok s => literal_loop n s

/-- `Decoder::dec_unk1`: literal copy of `get_code(num_chunks) +
add_count + 1` bytes, decrementing `data_size` by that count first. -/
def dec_unk1 (num_chunks add_count : Nat) (s : Decoder) : Except DecErr Decoder :=
  match get_code num_chunks s with
  | .error e => .error e
  | .ok (code, s) =>
    let count := code + add_count + 1
    literal_loop count { s with data_size := s.data_size - (count : Int) }

/-- The byte loop of `Decoder::dec_unk2`: each byte is read from
`output[cursor + dist]` (panic when out of bounds) and written at the
cursor. -/
def copy_loop (dist : Nat) : Nat → Decoder → Except DecErr Decoder
  | 0, s => .ok s
  | n + 1, s =>
    if s.output_cursor + dist < s.output.length then
      match write_byte s (s.output.getD (s.output_cursor + dist) 0) with
      | .error e => .error e
      | .ok s => copy_loop dist n s
    else .error .panicked

/-- `Decoder::dec_unk2`: back-reference with distance
`get_code(num_chunks)`, copying `size + 1` bytes and decrementing
`data_size` by that count first. -/
def dec_unk2 (num_chunks : Nat) (s : Decoder) : Except DecErr Decoder :=
  match get_code num_chunks s with
  | .error e => .error e
  | .ok (i, s) =>
    let count := s.size + 1
    copy_loop i count { s with data_size := s.data_size - (count : Int) }

/-- One iteration of the main loop of `Decoder::decode` (lines 59-81 of
resources.rs). -/
def decode_body (s : Decoder) : Except DecErr Decoder :=
  match next_chunk s with
  | .error e => .error e
  | .ok (a, s) =>
    if !a then
      let s := { s with size := 1 }
      match next_chunk s with
      | .error e => .error e
      | .ok (b, s) => if !b then dec_unk1 3 0 s else dec_unk2 8 s
    else
      match get_code 2 s with
      | .error e => .error e
      | .ok (c, s) =>
        if c = 3 then dec_unk1 8 8 s
        else if c < 2 then dec_unk2 (c + 9) { s with size := c + 2 }
        else
          match get_code 8 s with
          | .error e => .error e
          | .ok (v, s) => dec_unk2 12 { s with size := v }

/-- Result of running the decompressor main loop. -/
inductive DecRun where
  | done (s : Decoder)
  | failed (e : DecErr)
  | outOfFuel
deriving DecidableEq

/-- The main loop of `Decoder::decode`, fuelled: run `decode_body` and
stop as soon as `data_size ≤ 0`. -/
def decode_loop : Nat → Decoder → DecRun
  | 0, _ => .outOfFuel
  | fuel + 1, s =>
    match decode_body s with
    | .error e => .failed e
    | .ok s => if s.data_size ≤ 0 then .done s else decode_loop fuel s

/-- Header handling plus main loop of `Decoder::decode`: read
`data_size`, `crc`, `check` as reverse u32 words, xor `check` into
`crc`, then run the main loop. -/
def decode_run (fuel size packed_size : Nat) (input : List Nat) : DecRun :=
  match read_rev_u32 (Decoder.new size packed_size input) with
  | .error e => .failed e
  | .ok (ds, s) =>
    match read_rev_u32 { s with data_size := toI32 ds } with
    | .error e => .failed e
    | .ok (c, s) =>
      match read_rev_u32 { s with crc := c } with
      | .error e => .failed e
      | .ok (ck, s) => decode_loop fuel { s with check := ck, crc := s.crc ^^^ ck }

/-- Overall outcome of `Decoder::decode`. -/
inductive DecOutcome where
  | ok (output : List Nat)
  | fail (e : Error)
  | panicked
  | outOfFuel
deriving DecidableEq

/-- `Decoder::decode`: after the main loop completes, fail with
`CrcCheckFailed` when the crc register is nonzero, else return the
output buffer. -/
def decode (fuel size packed_size : Nat) (input : List Nat) : DecOutcome :=
  match decode_run fuel size packed_size input with
  | .outOfFuel => .outOfFuel
  | .failed (.fail e) => .fail e
  | .failed .panicked => .panicked
  | .done s => if s.crc ≠ 0 then .fail .CrcCheckFailed else .ok s.output

/-! Spec-side step for claim C1, written from the specification's words:
literal copies and back-references with explicitly named lengths. -/

/-- Modelled from the spec: a literal-copy block of
`get_code(num_chunks) + add_count + 1` bytes, each byte `get_code(8)`,
decrementing `data_size` by the written count. -/
def spec_literal (num_chunks add_count : Nat) (s : Decoder) : Except DecErr Decoder :=
  match get_code num_chunks s with
  | .error e => .error e
  | .ok (code, s) =>
    let count := code + add_count + 1
    literal_loop count { s with data_size := s.data_size - (count : Int) }

/-- Modelled from the spec: a back-reference of length `len` with
distance `get_code(dist_chunks)`, decrementing `data_size` by the
written count. -/
def spec_backref (dist_chunks len : Nat) (s : Decoder) : Except DecErr Decoder :=
  match get_code dist_chunks s with
  | .error e => .error e
  | .ok (i, s) =>
    copy_loop i len { s with data_size := s.data_size - (len : Int) }

/-- The decompressor main-loop step exactly as claim C1 words it:
`A=0,B=0`: literal of `get_code(3)+1`; `A=0,B=1`: back-reference of
length 2, distance `get_code(8)`; `A=1,c=3`: literal of `get_code(8)+9`;
`A=1,c<2`: back-reference of length `c+2`, distance `get_code(c+9)`;
`A=1,c=2`: back-reference of length `get_code(8)+1`, distance
`get_code(12)`. -/
def claim_body (s : Decoder) : Except DecErr Decoder :=
  match next_chunk s with
  | .error e => .error e
  | .ok (a, s) =>
    if !a then
      match next_chunk s with
      | .error e => .error e
      | .ok (b, s) => if !b then spec_literal 3 0 s else spec_backref 8 2 s
    else
      match get_code 2 s with
      | .error e => .error e
      | .ok (c, s) =>
        if c = 3 then spec_literal 8 8 s
        else if c < 2 then spec_backref (c + 9) (c + 2) s
        else
          match get_code 8 s with
          | .error e => .error e
          | .ok (v, s) => spec_backref 12 (v + 1) s

/-- The claim-C1 step amended in the one place the code differs: the
`A=1, c<2` back-reference has length `c+3` (the code sets `size = c+2`
and copies `size+1` bytes). -/
def amended_body (s : Decoder) : Except DecErr Decoder :=
  match next_chunk s with
  | .error e => .error e
  | .ok (a, s) =>
    if !a then
      match next_chunk s with
      | .error e => .error e
      | .ok (b, s) => if !b then spec_literal 3 0 s else spec_backref 8 2 s
    else
      match get_code 2 s with
      | .error e => .error e
      | .ok (c, s) =>
        if c = 3 then spec_literal 8 8 s
        else if c < 2 then spec_backref (c + 9) (c + 3) s
        else
          match get_code 8 s with
          | .error e => .error e
          | .ok (v, s) => spec_backref 12 (v + 1) s

/-- The observable part of the decoder state: everything except the
internal `size` scratch field (a bookkeeping register the spec's step
description does not track). -/
structure DecObs where
  crc : Nat
  check : Nat
  data_size : Int
  output : List Nat
  output_cursor : Nat
  input : List Nat
  input_cursor : Nat
deriving DecidableEq

/-- Project a decoder state to its observable part. -/
def Decoder.obs (s : Decoder) : DecObs :=
  { crc := s.crc
    check := s.check
    data_size := s.data_size
    output := s.output
    output_cursor := s.output_cursor
    input := s.input
    input_cursor := s.input_cursor }

/-- Observable view of a step result. -/
def obsResult (r : Except DecErr Decoder) : Except DecErr DecObs :=
  r.map Decoder.obs

/-- A concrete decoder state on which the code's step and the claim's
step disagree: the check register holds bits `A=1`, `c=0`, distance
code 1; the code then copies three bytes where the claim copies two. -/
def c1State : Decoder :=
  { crc := 0
    check := 0x1801
    data_size := 10
    size := 0
    output := [10, 11, 12, 13, 14, 15, 16, 17]
    output_cursor := 3
    input := []
    input_cursor := 0 }

/-- Concrete packed input (a single literal block producing one byte
0xAB) whose decompression completes with crc 0. -/
def c2Input : List Nat :=
  [0x00, 0x00, 0x3A, 0xA0, 0x00, 0x00, 0x3A, 0xA0, 0x00, 0x00, 0x00, 0x01]

/-- The decoder state reached when the main loop of `decode 1 1 12
c2Input` completes. -/
def c2State : Decoder :=
  { crc := 0
    check := 1
    data_size := 0
    size := 1
    output := [0xAB]
    output_cursor := 2 ^ 64 - 1
    input := c2Input
    input_cursor := 0 }

/-! Part 2: the resource catalog from src/engine/src/resources.rs
(`Resources`, `MemEntry`, `GamePart`).  The `Io::entry` operation (bank
file access plus decompression) is abstracted as a `Loader` function
returning the payload bytes or an error, exactly the observable
behaviour of `Io::entry`. -/

/-- Resource payload kind, after `enum ResourceType`. -/
inductive ResourceType where
  | Sound
  | Music
  | PolygonAnimation
  | Palette
  | Bytecode
  | PolygonCinematic
  | Unknown
deriving DecidableEq

/-- Load state of a catalog entry, after `enum MemEntryState`. -/
inductive MemEntryState where
  | NotNeeded
  | Loaded (data : List Nat)
  | Requested
deriving DecidableEq

/-- One MEMLIST entry, after `struct MemEntry` (metadata fields the
claims never touch keep their source types as plain naturals). -/
structure MemEntry where
  state : MemEntryState
  kind : ResourceType
  bank_id : Nat
  bank_offset : Nat
  packed_size : Nat
  size : Nat
deriving DecidableEq

/-- Game part, after `enum GamePart`. -/
inductive GamePart where
  | One
  | Two
  | Three
  | Four
  | Five
  | Six
  | Seven
  | Eight
  | Nine
  | Ten
deriving DecidableEq

/-- `GamePart::from`: only the ids 0x3e80..=0x3e89 map to a part. -/
def GamePart.fromId (id : Nat) : Option GamePart :=
  if id = 0x3e80 then some .One
  else if id = 0x3e81 then some .Two
  else if id = 0x3e82 then some .Three
  else if id = 0x3e83 then some .Four
  else if id = 0x3e84 then some .Five
  else if id = 0x3e85 then some .Six
  else if id = 0x3e86 then some .Seven
  else if id = 0x3e87 then some .Eight
  else if id = 0x3e88 then some .Nine
  else if id = 0x3e89 then some .Ten
  else none

/-- `GamePart::palette`: entry index of the part's palette. -/
def GamePart.palette : GamePart → Nat
  | .One => 0x14
  | .Two => 0x17
  | .Three => 0x1a
  | .Four => 0x1d
  | .Five => 0x20
  | .Six => 0x23
  | .Seven => 0x26
  | .Eight => 0x29
  | .Nine => 0x7d
  | .Ten => 0x7d

/-- `GamePart::bytecode`: entry index of the part's bytecode. -/
def GamePart.bytecode : GamePart → Nat
  | .One => 0x15
  | .Two => 0x18
  | .Three => 0x1b
  | .Four => 0x1e
  | .Five => 0x21
  | .Six => 0x24
  | .Seven => 0x27
  | .Eight => 0x2a
  | .Nine => 0x7e
  | .Ten => 0x7e

/-- `GamePart::cinematic`: entry index of the part's cinematic buffer. -/
def GamePart.cinematic : GamePart → Nat
  | .One => 0x16
  | .Two => 0x19
  | .Three => 0x1c
  | .Four => 0x1f
  | .Five => 0x22
  | .Six => 0x25
  | .Seven => 0x28
  | .Eight => 0x2b
  | .Nine => 0x7f
  | .Ten => 0x7f

/-- `GamePart::alt_video`: optional entry index of the alternate video
buffer. -/
def GamePart.alt_video : GamePart → Option Nat
  | .One => none
  | .Two => none
  | .Three => some 0x11
  | .Four => some 0x11
  | .Five => some 0x11
  | .Six => none
  | .Seven => some 0x11
  | .Eight => some 0x11
  | .Nine => none
  | .Ten => none

/-- The resource catalog state, after `struct Resources` (the `io`
handle is passed separately as a `Loader`). -/
structure Resources where
  entries : List MemEntry
  loaded_part : Option GamePart
  requested_part : Option GamePart
deriving DecidableEq

/-- The observable behaviour of `Io::entry`: payload bytes or error. -/
abbrev Loader := MemEntry → Except Error (List Nat)

/-- `Resources::unload`: every entry back to `NotNeeded`, forget the
loaded part. -/
def Resources.unload (r : Resources) : Resources :=
  { r with
      entries := r.entries.map (fun e => { e with state := .NotNeeded })
      loaded_part := none }

/-- Mark the entry at index `i` as `Requested` when it exists
(`entries.get_mut(i)` pattern of `request_part`). -/
def requestIdx (es : List MemEntry) (i : Nat) : List MemEntry :=
  match es[i]? with
  | some e => es.set i { e with state := .Requested }
  | none => es

/-- `Resources::request_part`: mark the part's palette, bytecode,
cinematic and optional alt-video entries as requested. -/
def Resources.request_part (r : Resources) (part : GamePart) : Resources :=
  let es := requestIdx r.entries part.palette
  let es := requestIdx es part.bytecode
  let es := requestIdx es part.cinematic
  let es :=
    match part.alt_video with
    | some i => requestIdx es i
    | none => es
  { r with entries := es }

/-- The per-entry body of `Resources::load_requested`. -/
def loadEntry (loader : Loader) (e : MemEntry) : MemEntry :=
  match e.state with
  | .Requested =>
    match loader e with
    | .ok data => { e with state := .Loaded data }
    | .error _ => { e with state := .NotNeeded }
  | _ => e

/-- `Resources::load_requested`: load every `Requested` entry, loading
failures downgrade the entry to `NotNeeded`. -/
def Resources.load_requested (loader : Loader) (r : Resources) : Resources :=
  { r with entries := r.entries.map (loadEntry loader) }

/-- `Resources::prepare_part`: no-op when the part is already loaded,
else unload everything, request the part's entries, load them, and
record the part. -/
def Resources.prepare_part (loader : Loader) (r : Resources) (part : GamePart) : Resources :=
  if r.loaded_part = some part then r
  else
    let r := r.unload
    let r := r.request_part part
    let r := Resources.load_requested loader r
    { r with loaded_part := some part }

/-- `Resources::load_part_or_entry`: ids beyond the entry list are part
change requests latched into `requested_part`; otherwise a `NotNeeded`
entry is marked requested and loaded at once. -/
def Resources.load_part_or_entry (loader : Loader) (r : Resources) (resource_id : Nat) :
    Resources :=
  if resource_id > r.entries.length then
    { r with requested_part := GamePart.fromId resource_id }
  else
    match r.entries[resource_id]? with
    | some e =>
      if e.state = .NotNeeded then
        Resources.load_requested loader
          { r with entries := r.entries.set resource_id { e with state := .Requested } }
      else r
    | none => r

/-- `Resources::segment`: look up the loaded payload of the entry the
given projection of the loaded part points at. -/
def Resources.segment (r : Resources) (f : GamePart → Option Nat) : Option (List Nat) :=
  r.loaded_part.bind fun p =>
    (f p).bind fun i =>
      r.entries[i]?.bind fun e =>
        match e.state with
        | .Loaded data => some data
        | _ => none

/-- `Resources::palette` accessor. -/
def Resources.palette (r : Resources) : Option (List Nat) :=
  r.segment (fun p => some p.palette)

/-- `Resources::bytecode` accessor. -/
def Resources.bytecode (r : Resources) : Option (List Nat) :=
  r.segment (fun p => some p.bytecode)

/-- `Resources::cinematic` accessor. -/
def Resources.cinematic (r : Resources) : Option (List Nat) :=
  r.segment (fun p => some p.cinematic)

/-- `Resources::alt_video` accessor. -/
def Resources.alt_video (r : Resources) : Option (List Nat) :=
  r.segment GamePart.alt_video

/-- A blank catalog entry for concrete test states. -/
def defaultEntry : MemEntry :=
  { state := .NotNeeded
    kind := .Unknown
    bank_id := 1
    bank_offset := 0
    packed_size := 0
    size := 0 }

/-- A loader that fails on every entry (missing or corrupt bank data). -/
def failLoader : Loader := fun _ => .error .ioError

/-- A loader that returns a one-byte payload for every entry. -/
def okLoader : Loader := fun _ => .ok [7]

/-- A catalog with 32 blank entries and nothing loaded. -/
def c3Resources : Resources :=
  { entries := List.replicate 0x20 defaultEntry
    loaded_part := none
    requested_part := none }

/-- A catalog with 23 blank entries (covering part One's indices). -/
def c3wResources : Resources :=
  { entries := List.replicate 0x17 defaultEntry
    loaded_part := none
    requested_part := none }

/-- A catalog with 32 blank entries and a previously latched part
request. -/
def c10Resources : Resources :=
  { entries := List.replicate 0x20 defaultEntry
    loaded_part := none
    requested_part := some GamePart.Two }

/-! Part 3: the virtual machine from src/engine/src/vm.rs.  Variables
are i16 values indexed by a u8, the 64 thread slots and the 256-slot
u16 stack are modelled as total functions (Rust's fixed arrays), with
explicit panic guards wherever the source can panic. -/

/-- Source tag of a polygon blob, after `enum PolygonSource`. -/
inductive PolygonSource where
  | Cinematic
  | AltVideo
deriving DecidableEq

/-- After `struct PolygonResource`. -/
structure PolygonResource where
  buffer_offset : Nat
  source : PolygonSource
deriving DecidableEq

/-- After `struct DrawCommand` in video.rs. -/
structure DrawCommand where
  polygon : PolygonResource
  x : Int
  y : Int
  zoom : Int
deriving DecidableEq

/-- After `struct PaletteCommand`. -/
structure PaletteCommand where
  palette_id : Nat
deriving DecidableEq

/-- After `struct SelectVideoPageCommand`. -/
structure SelectVideoPageCommand where
  page_id : Nat
deriving DecidableEq

/-- After `struct FillVideoPageCommand`. -/
structure FillVideoPageCommand where
  page_id : Nat
  color : Nat
deriving DecidableEq

/-- After `struct CopyVideoPageCommand`. -/
structure CopyVideoPageCommand where
  src_page_id : Nat
  dest_page_id : Nat
  scroll : Int
deriving DecidableEq

/-- After `struct DrawStringCommand`. -/
structure DrawStringCommand where
  string_id : Nat
  x : Nat
  y : Nat
  color : Nat
deriving DecidableEq

/-- After `struct BlitCommand`. -/
structure BlitCommand where
  page_id : Nat
deriving DecidableEq

/-- After `enum VideoCommand` in video.rs. -/
inductive VideoCommand where
  | Draw (c : DrawCommand)
  | Palette (c : PaletteCommand)
  | SelectVideoPage (c : SelectVideoPageCommand)
  | FillVideoPage (c : FillVideoPageCommand)
  | CopyVideoPage (c : CopyVideoPageCommand)
  | DrawString (c : DrawStringCommand)
  | Blit (c : BlitCommand)
deriving DecidableEq

/-- After `struct ThreadData`; pc values are u16 with the sentinels
0xffff (idle / no change) and 0xfffe (kill at next update). -/
structure ThreadData where
  pc : Nat
  requested_pc : Nat
  paused : Bool
  requested_pause : Bool
deriving DecidableEq

/-- Rust `ThreadData::default()`: all zero / false. -/
def ThreadData.zero : ThreadData :=
  { pc := 0, requested_pc := 0, paused := false, requested_pause := false }

/-- After `struct Vm` (the source field `variables` is a reserved word
in Lean and is embedded as `var_data`). -/
structure Vm where
  var_data : Nat → Int
  thread_data : Nat → ThreadData
  current_thread : Nat
  stack : Nat → Nat
  stack_ptr : Nat
  resume_pending : Bool
  video_commands : List VideoCommand
  bypass : Bool

/-- Variable ids from `mod vars`. -/
def vars.HERO_POS_UP_DOWN : Nat := 0xe5

/-- Variable id of `HERO_ACTION`. -/
def vars.HERO_ACTION : Nat := 0xfa

/-- Variable id of `HERO_POS_JUMP_DOWN`. -/
def vars.HERO_POS_JUMP_DOWN : Nat := 0xfb

/-- Variable id of `HERO_POS_LEFT_RIGHT`. -/
def vars.HERO_POS_LEFT_RIGHT : Nat := 0xfc

/-- Variable id of `HERO_POS_MASK`. -/
def vars.HERO_POS_MASK : Nat := 0xfd

/-- Variable id of `HERO_ACTION_POS_MASK`. -/
def vars.HERO_ACTION_POS_MASK : Nat := 0xfe

/-- Variable id of `RANDOM_SEED`. -/
def vars.RANDOM_SEED : Nat := 0x3c

/-- Variable id of `MUSIC_MARKER`. -/
def vars.MUSIC_MARKER : Nat := 0xf4

/-- Variable id of `SCROLL_Y`. -/
def vars.SCROLL_Y : Nat := 0xf9

/-- Variable id of `SLEEP_TICKS`. -/
def vars.SLEEP_TICKS : Nat := 0xff

/-- `Vm::get_var` (the music-marker logging is a pure side effect and
drops out of the embedding). -/
def Vm.get_var (vm : Vm) (id : Nat) : Int := vm.var_data id

/-- `Vm::set_var`. -/
def Vm.set_var (vm : Vm) (id : Nat) (v : Int) : Vm :=
  { vm with var_data := fun i => if i = id then v else vm.var_data i }

/-- `Vm::thread`. -/
def Vm.thread_at (vm : Vm) (id : Nat) : ThreadData := vm.thread_data id

/-- Point update of one thread slot. -/
def Vm.set_thread (vm : Vm) (id : Nat) (t : ThreadData) : Vm :=
  { vm with thread_data := fun i => if i = id then t else vm.thread_data i }

/-- `Vm::current_thread()` accessor. -/
def Vm.cur (vm : Vm) : ThreadData := vm.thread_data vm.current_thread

/-- Assignment through `self.current_thread().pc = _`. -/
def Vm.set_cur_pc (vm : Vm) (pc : Nat) : Vm :=
  vm.set_thread vm.current_thread { vm.cur with pc := pc }

/-- `self.video_commands.push(_)`. -/
def Vm.push_cmd (vm : Vm) (c : VideoCommand) : Vm :=
  { vm with video_commands := vm.video_commands ++ [c] }

/-- `Vm::init_part`. -/
def Vm.init_part (vm : Vm) : Vm :=
  let vm := vm.set_var 0xe4 0x14
  let vm := { vm with
    thread_data := fun t =>
      if t < 64 then { pc := 0xffff, requested_pc := 0xffff, paused := false, requested_pause := false }
      else vm.thread_data t }
  let vm := { vm with current_thread := 0 }
  let vm := vm.set_cur_pc 0x0000
  { vm with resume_pending := false }

/-- `Vm::new`. -/
def Vm.new (bypass : Bool) : Vm :=
  let vm : Vm :=
    { var_data := fun _ => 0
      thread_data := fun _ => ThreadData.zero
      current_thread := 0
      stack := fun _ => 0
      stack_ptr := 0
      resume_pending := false
      video_commands := []
      bypass := bypass }
  let vm := vm.set_var 0x54 0x81
  let vm := vm.set_var vars.RANDOM_SEED 0x1234
  let vm :=
    if vm.bypass then
      ((((vm.set_var 0xbc 0x10).set_var 0xc6 0x80).set_var 0xf2 4000).set_var 0xdc 33)
    else vm
  vm.init_part

/-- After `enum JmpCondition`. -/
inductive JmpCondition where
  | Eq
  | NotEq
  | Greater
  | GreaterEq
  | Less
  | LessEq
deriving DecidableEq

/-- After `enum VarOrConst`. -/
inductive VarOrConst where
  | Variable (v : Nat)
  | Const (n : Int)
deriving DecidableEq

/-- After `enum Instruction`. -/
inductive Instruction where
  | MovConst (dst : Nat) (n : Int)
  | Mov (dst src : Nat)
  | Add (dst src : Nat)
  | AddConst (dst : Nat) (n : Int)
  | Call (addr : Nat)
  | Ret
  | TPause
  | Jmp (addr : Nat)
  | SetVec (tid pcv : Nat)
  | Jnz (var addr : Nat)
  | CondJmp (cond : JmpCondition) (var : Nat) (operand : VarOrConst) (dest : Nat)
  | SetPalette (pid : Nat)
  | TReset (tstart tend mode : Nat)
  | SelectVideoPage (pid : Nat)
  | FillVideoPage (pid color : Nat)
  | CopyVideoPage (src dst : Nat)
  | Blit (pid : Nat)
  | TKill
  | DrawString (sid x y color : Nat)
  | Sub (dst src : Nat)
  | And (dst value : Nat)
  | Or (dst value : Nat)
  | Shl (dst value : Nat)
  | Shr (dst value : Nat)
  | PlaySound (res freq vol ch : Nat)
  | LoadRes (res : Nat)
  | PlayMusic (res delay pos : Nat)
  | Draw (p : PolygonResource) (x y zoom : VarOrConst)
deriving DecidableEq

/-- `ProgramCounter::read_u8` (panic outside the buffer becomes
`none`); byte values are reduced modulo 256 as Rust's u8 type
guarantees. -/
def readU8 (mem : List Nat) (addr : Nat) : Option (Nat × Nat) :=
  match mem[addr]? with
  | some v => some (v % 256, addr + 1)
  | none => none

/-- `ProgramCounter::read_u16`: big-endian, high byte first. -/
def readU16 (mem : List Nat) (addr : Nat) : Option (Nat × Nat) := do
  let (high, a) ← readU8 mem addr
  let (low, a) ← readU8 mem a
  some (high * 256 + low, a)

/-- Reinterpret a u16 bit pattern as an i16, as `v as i16` in Rust. -/
def toI16 (v : Nat) : Int := if v < 0x8000 then (v : Int) else (v : Int) - 0x10000

/-- `ProgramCounter::read_i16`. -/
def readI16 (mem : List Nat) (addr : Nat) : Option (Int × Nat) :=
  (readU16 mem addr).map fun p => (toI16 p.1, p.2)

/-- `Vm::decode` (vm.rs lines 93-216): decode one instruction at the
given address; `none` stands for the source's panics (read out of
range, invalid opcode, invalid jump condition). -/
def Vm.decode (mem : List Nat) (addr : Nat) : Option (Instruction × Nat) := do
  let (op, a) ← readU8 mem addr
  if op = 0x00 then
    let (d, a) ← readU8 mem a
    let (n, a) ← readI16 mem a
    some (.MovConst d n, a)
  else if op = 0x01 then
    let (d, a) ← readU8 mem a
    let (s, a) ← readU8 mem a
    some (.Mov d s, a)
  else if op = 0x02 then
    let (d, a) ← readU8 mem a
    let (s, a) ← readU8 mem a
    some (.Add d s, a)
  else if op = 0x03 then
    let (d, a) ← readU8 mem a
    let (n, a) ← readI16 mem a
    some (.AddConst d n, a)
  else if op = 0x04 then
    let (d, a) ← readU16 mem a
    some (.Call d, a)
  else if op = 0x05 then
    some (.Ret, a)
  else if op = 0x06 then
    some (.TPause, a)
  else if op = 0x07 then
    let (d, a) ← readU16 mem a
    some (.Jmp d, a)
  else if op = 0x08 then
    let (t, a) ← readU8 mem a
    let (p, a) ← readU16 mem a
    some (.SetVec t p, a)
  else if op = 0x09 then
    let (v, a) ← readU8 mem a
    let (d, a) ← readU16 mem a
    some (.Jnz v d, a)
  else if op = 0x0a then
    let (sub, a) ← readU8 mem a
    let (varb, a) ← readU8 mem a
    let mm := sub &&& 0xc0
    let (operand, a) ←
      if mm = 0x80 ∨ mm = 0xc0 then
        (readU8 mem a).map fun p => (VarOrConst.Variable p.1, p.2)
      else if mm = 0x40 then
        (readI16 mem a).map fun p => (VarOrConst.Const p.1, p.2)
      else
        (readU8 mem a).map fun p => (VarOrConst.Const (p.1 : Int), p.2)
    let cc := sub &&& 0x7
    let cond ←
      if cc = 0 then some JmpCondition.Eq
      else if cc = 1 then some JmpCondition.NotEq
      else if cc = 2 then some JmpCondition.Greater
      else if cc = 3 then some JmpCondition.GreaterEq
      else if cc = 4 then some JmpCondition.Less
      else if cc = 5 then some JmpCondition.LessEq
      else none
    let (dest, a) ← readU16 mem a
    some (.CondJmp cond varb operand dest, a)
  else if op = 0x0b then
    let (p, a) ← readU16 mem a
    some (.SetPalette p, a)
  else if op = 0x0c then
    let (ts, a) ← readU8 mem a
    let (te, a) ← readU8 mem a
    let (m, a) ← readU8 mem a
    some (.TReset ts te m, a)
  else if op = 0x0d then
    let (p, a) ← readU8 mem a
    some (.SelectVideoPage p, a)
  else if op = 0x0e then
    let (p, a) ← readU8 mem a
    let (c, a) ← readU8 mem a
    some (.FillVideoPage p c, a)
  else if op = 0x0f then
    let (s, a) ← readU8 mem a
    let (d, a) ← readU8 mem a
    some (.CopyVideoPage s d, a)
  else if op = 0x10 then
    let (p, a) ← readU8 mem a
    some (.Blit p, a)
  else if op = 0x11 then
    some (.TKill, a)
  else if op = 0x12 then
    let (sid, a) ← readU16 mem a
    let (x, a) ← readU8 mem a
    let (y, a) ← readU8 mem a
    let (c, a) ← readU8 mem a
    some (.DrawString sid x y c, a)
  else if op = 0x13 then
    let (d, a) ← readU8 mem a
    let (s, a) ← readU8 mem a
    some (.Sub d s, a)
  else if op = 0x14 then
    let (d, a) ← readU8 mem a
    let (v, a) ← readU16 mem a
    some (.And d v, a)
  else if op = 0x15 then
    let (d, a) ← readU8 mem a
    let (v, a) ← readU16 mem a
    some (.Or d v, a)
  else if op = 0x16 then
    let (d, a) ← readU8 mem a
    let (v, a) ← readU16 mem a
    some (.Shl d v, a)
  else if op = 0x17 then
    let (d, a) ← readU8 mem a
    let (v, a) ← readU16 mem a
    some (.Shr d v, a)
  else if op = 0x18 then
    let (r, a) ← readU16 mem a
    let (f, a) ← readU8 mem a
    let (v, a) ← readU8 mem a
    let (c, a) ← readU8 mem a
    some (.PlaySound r f v c, a)
  else if op = 0x19 then
    let (r, a) ← readU16 mem a
    some (.LoadRes r, a)
  else if op = 0x1a then
    let (r, a) ← readU16 mem a
    let (d, a) ← readU16 mem a
    let (p, a) ← readU8 mem a
    some (.PlayMusic r d p, a)
  else if op &&& 0x80 ≠ 0 then
    let (b, a) ← readU8 mem a
    let offset := op * 256 + b
    let (x0, a) ← readU8 mem a
    let (y0, a) ← readU8 mem a
    let x : Int := (x0 : Int)
    let y : Int := (y0 : Int)
    let h := y - 199
    let p := if h > 0 then ((x + h, (199 : Int)) : Int × Int) else (x, y)
    some (.Draw { buffer_offset := offset * 2 % 65536, source := .Cinematic }
      (.Const p.1) (.Const p.2) (.Const 0x40), a)
  else if op &&& 0x40 ≠ 0 then
    let (offset, a) ← readU16 mem a
    let mX := op &&& 0x30
    let (x, a) ←
      if mX = 0x00 then (readI16 mem a).map fun p => (VarOrConst.Const p.1, p.2)
      else if mX = 0x10 then (readU8 mem a).map fun p => (VarOrConst.Variable p.1, p.2)
      else if mX = 0x20 then (readU8 mem a).map fun p => (VarOrConst.Const (p.1 : Int), p.2)
      else (readU8 mem a).map fun p => (VarOrConst.Const ((p.1 : Int) + 0x100), p.2)
    let mY := op &&& 0x0c
    let (y, a) ←
      if mY = 0x00 then (readI16 mem a).map fun p => (VarOrConst.Const p.1, p.2)
      else if mY = 0x04 then (readU8 mem a).map fun p => (VarOrConst.Variable p.1, p.2)
      else (readU8 mem a).map fun p => (VarOrConst.Const (p.1 : Int), p.2)
    let mZ := op &&& 0x03
    let (zoom, a) ←
      if mZ = 0x00 then some (VarOrConst.Const 0x40, a)
      else if mZ = 0x01 then (readU8 mem a).map fun p => (VarOrConst.Variable p.1, p.2)
      else if mZ = 0x02 then (readU8 mem a).map fun p => (VarOrConst.Const (p.1 : Int), p.2)
      else some (VarOrConst.Const 0x40, a)
    let source := if op &&& 0x03 = 0x03 then PolygonSource.AltVideo else PolygonSource.Cinematic
    some (.Draw { buffer_offset := offset * 2 % 65536, source := source } x y zoom, a)
  else none

/-- i16 wrapping normalization. -/
def wrap16 (n : Int) : Int := (n + 0x8000) % 0x10000 - 0x8000

/-- Reinterpret an i16 value as a u16, as `v as u16` in Rust. -/
def toU16 (n : Int) : Nat := (n % 0x10000).toNat

/-- Reinterpret an i16 value as a u64 (sign extension), as in Rust. -/
def toU64 (n : Int) : Nat := (n % (2 ^ 64 : Int)).toNat

/-- A VM yield, after `enum Yield`. -/
inductive Yld where
  | Blit (ms : Nat)
  | ReqResource (res : Nat)
deriving DecidableEq

/-- After `enum InstructionResult`. -/
inductive InstrRes where
  | yld (y : Yld)
  | cont
  | nextThread
deriving DecidableEq

/-- `Vm::execute` (vm.rs lines 237-424); `none` stands for the
source's panics (stack overflow or underflow, invalid thread reset
range, thread index out of range, shift overflow in a debug build). -/
def Vm.execute (vm : Vm) : Instruction → Option (Vm × InstrRes)
  | .MovConst d n => some (vm.set_var d n, .cont)
  | .Mov d s => some (vm.set_var d (vm.get_var s), .cont)
  | .Add d s => some (vm.set_var d (wrap16 (vm.get_var d + vm.get_var s)), .cont)
  | .AddConst d n => some (vm.set_var d (wrap16 (vm.get_var d + n)), .cont)
  | .Call dest =>
    if vm.stack_ptr = 0xff then none
    else
      let vm' := { vm with stack := fun i => if i = vm.stack_ptr then vm.cur.pc else vm.stack i }
      let vm' := { vm' with stack_ptr := vm'.stack_ptr + 1 }
      some (vm'.set_cur_pc dest, .cont)
  | .Ret =>
    if vm.stack_ptr = 0 then none
    else
      let vm' := { vm with stack_ptr := vm.stack_ptr - 1 }
      some (vm'.set_cur_pc (vm'.stack vm'.stack_ptr), .cont)
  | .TPause => some (vm, .nextThread)
  | .Jmp dest => some (vm.set_cur_pc dest, .cont)
  | .SetVec tid pcv =>
    if tid < 64 then
      some (vm.set_thread tid { vm.thread_at tid with requested_pc := pcv }, .cont)
    else none
  | .Jnz v dest =>
    let res := wrap16 (vm.get_var v - 1)
    let vm := vm.set_var v res
    if res ≠ 0 then some (vm.set_cur_pc dest, .cont) else some (vm, .cont)
  | .CondJmp cond varb operand dest =>
    let left := vm.get_var varb
    let right :=
      match operand with
      | .Variable v => vm.get_var v
      | .Const n => n
    let take : Bool :=
      match cond with
      | .Eq => decide (left = right)
      | .NotEq => decide (left ≠ right)
      | .Greater => decide (left > right)
      | .GreaterEq => decide (left ≥ right)
      | .Less => decide (left < right)
      | .LessEq => decide (left ≤ right)
    if take then some (vm.set_cur_pc dest, .cont) else some (vm, .cont)
  | .SetPalette pid => some (vm.push_cmd (.Palette { palette_id := pid >>> 8 }), .cont)
  | .TReset tstart tend mode =>
    let tend := if 64 ≤ tend then tend &&& 63 else tend
    if tend < tstart then none
    else if mode = 2 then
      some ({ vm with thread_data := fun i =>
        if tstart ≤ i ∧ i ≤ tend then { vm.thread_data i with requested_pc := 0xfffe }
        else vm.thread_data i }, .cont)
    else if mode < 2 then
      some ({ vm with thread_data := fun i =>
        if tstart ≤ i ∧ i ≤ tend then { vm.thread_data i with requested_pause := mode == 1 }
        else vm.thread_data i }, .cont)
    else some (vm, .cont)
  | .SelectVideoPage pid =>
    some (vm.push_cmd (.SelectVideoPage { page_id := pid }), .cont)
  | .FillVideoPage pid color =>
    some (vm.push_cmd (.FillVideoPage { page_id := pid, color := color }), .cont)
  | .CopyVideoPage s d =>
    let scroll := vm.get_var vars.SCROLL_Y
    some (vm.push_cmd (.CopyVideoPage { src_page_id := s, dest_page_id := d, scroll := scroll }), .cont)
  | .Blit pid =>
    let vm := vm.set_var 0xf7 0
    let duration := toU64 (vm.get_var vars.SLEEP_TICKS) * 20 % 2 ^ 64
    some (vm.push_cmd (.Blit { page_id := pid }), .yld (.Blit duration))
  | .TKill => some (vm.set_cur_pc 0xffff, .nextThread)
  | .DrawString sid x y color =>
    some (vm.push_cmd (.DrawString { string_id := sid, x := x, y := y, color := color }), .cont)
  | .Sub d s => some (vm.set_var d (wrap16 (vm.get_var d - vm.get_var s)), .cont)
  | .And d value => some (vm.set_var d (toI16 (toU16 (vm.get_var d) &&& value)), .cont)
  | .Or d value => some (vm.set_var d (toI16 (toU16 (vm.get_var d) ||| value)), .cont)
  | .Shl d value =>
    if value < 16 then
      some (vm.set_var d (toI16 (toU16 (vm.get_var d) <<< value % 65536)), .cont)
    else none
  | .Shr d value =>
    if value < 16 then
      some (vm.set_var d (toI16 (toU16 (vm.get_var d) >>> value)), .cont)
    else none
  | .PlaySound _ _ _ _ => some (vm, .cont)
  | .LoadRes res => some (vm, .yld (.ReqResource res))
  | .PlayMusic _ _ _ => some (vm, .cont)
  | .Draw poly x y zoom =>
    let xv :=
      match x with
      | .Variable v => vm.get_var v
      | .Const n => n
    let yv :=
      match y with
      | .Variable v => vm.get_var v
      | .Const n => n
    let zv :=
      match zoom with
      | .Variable v => vm.get_var v
      | .Const n => n
    some (vm.push_cmd (.Draw { polygon := poly, x := xv, y := yv, zoom := zv }), .cont)

/-- Result of running one thread until it yields or ends its slice. -/
inductive ThreadRun where
  | yld (vm : Vm) (y : Yld)
  | nextThread (vm : Vm)
  | panicked
  | outOfFuel

/-- `Vm::execute_thread`, fuelled: decode at the current thread's pc,
commit the advanced pc (as u16), execute, repeat on `Continue`. -/
def Vm.execute_thread : Nat → List Nat → Vm → ThreadRun
  | 0, _, _ => .outOfFuel
  | fuel + 1, mem, vm =>
    match Vm.decode mem vm.cur.pc with
    | none => .panicked
    | some (inst, addr) =>
      let vm := vm.set_cur_pc (addr % 65536)
      match vm.execute inst with
      | none => .panicked
      | some (vm, .yld y) => .yld vm y
      | some (vm, .nextThread) => .nextThread vm
      | some (vm, .cont) => Vm.execute_thread fuel mem vm

/-- Result of a frame, after `enum FrameResult` (the state-free view
is `FrameResultTag`). -/
inductive FrameRun where
  | yld (vm : Vm) (y : Yld)
  | complete (vm : Vm)
  | panicked
  | outOfFuel

/-- After `enum FrameResult`. -/
inductive FrameResultTag where
  | Yield (y : Yld)
  | Complete
deriving DecidableEq

/-- The `FrameResult` value a frame run returns (per the source's
signature), `none` when the run panicked or ran out of fuel. -/
def FrameRun.result : FrameRun → Option FrameResultTag
  | .yld _ y => some (.Yield y)
  | .complete _ => some .Complete
  | .panicked => none
  | .outOfFuel => none

/-- The video command queue at the end of a frame run. -/
def FrameRun.commands : FrameRun → Option (List VideoCommand)
  | .yld vm _ => some vm.video_commands
  | .complete vm => some vm.video_commands
  | .panicked => none
  | .outOfFuel => none

/-- The per-thread commit step inside `Vm::update_threads`. -/
def commitThread (td : ThreadData) : ThreadData :=
  let td := { td with paused := td.requested_pause }
  if td.requested_pc ≠ 0xffff then
    { td with
        pc := if td.requested_pc = 0xfffe then 0xffff else td.requested_pc
        requested_pc := 0xffff }
  else td

/-- `Vm::update_threads`: commit all 64 thread slots. -/
def Vm.update_threads (vm : Vm) : Vm :=
  { vm with thread_data := fun t =>
      if t < 64 then commitThread (vm.thread_data t) else vm.thread_data t }

/-- After `struct InputState` in input.rs. -/
structure InputState where
  up : Bool
  left : Bool
  right : Bool
  down : Bool
  action : Bool
  turbo : Bool
deriving DecidableEq

/-- `Vm::update_input` (vm.rs lines 451-487), with the source's exact
assignment order. -/
def Vm.update_input (vm : Vm) (input : InputState) : Vm :=
  let lr : Int := 0
  let ud : Int := 0
  let mask : Nat := 0
  let p1 := if input.right then ((1 : Int), mask ||| 1) else (lr, mask)
  let lr := p1.1
  let mask := p1.2
  let p2 := if input.left then ((-1 : Int), mask ||| 2) else (lr, mask)
  let lr := p2.1
  let mask := p2.2
  let p3 := if input.down then ((1 : Int), mask ||| 4) else (ud, mask)
  let ud := p3.1
  let mask := p3.2
  let vm := vm.set_var vars.HERO_POS_UP_DOWN ud
  let p4 :=
    if input.up then ((-1 : Int), mask ||| 8, vm.set_var vars.HERO_POS_UP_DOWN (-1))
    else (ud, mask, vm)
  let ud := p4.1
  let mask := p4.2.1
  let vm := p4.2.2
  let vm := vm.set_var vars.HERO_POS_MASK (mask : Int)
  let p5 :=
    if input.action then (mask ||| 0x80, vm.set_var vars.HERO_ACTION 1)
    else (mask, vm)
  let mask := p5.1
  let vm := p5.2
  let vm := vm.set_var vars.HERO_POS_JUMP_DOWN ud
  let vm := vm.set_var vars.HERO_POS_LEFT_RIGHT lr
  vm.set_var vars.HERO_ACTION_POS_MASK (mask : Int)

/-- The thread loop of `Vm::resume_frame` (vm.rs lines 492-512),
iterating thread ids `t` up to 63. -/
def Vm.resume_loop (fuel : Nat) (mem : List Nat) (t : Nat) (vm : Vm) : FrameRun :=
  if h : 64 ≤ t then .complete vm
  else
    let vm := { vm with current_thread := t }
    let td := vm.thread_data t
    if td.paused then Vm.resume_loop fuel mem (t + 1) vm
    else if td.pc ≠ 0xffff then
      let vm :=
        if !vm.resume_pending then { vm with stack_ptr := 0 }
        else { vm with resume_pending := false }
      match Vm.execute_thread fuel mem vm with
      | .yld vm y => .yld { vm with resume_pending := true } y
      | .nextThread vm => Vm.resume_loop fuel mem (t + 1) vm
      | .panicked => .panicked
      | .outOfFuel => .outOfFuel
    else Vm.resume_loop fuel mem (t + 1) vm
termination_by 64 - t

/-- `Vm::resume_frame`: apply input, then run threads from the current
one. -/
def Vm.resume_frame (fuel : Nat) (mem : List Nat) (vm : Vm) (input : InputState) : FrameRun :=
  let vm := vm.update_input input
  Vm.resume_loop fuel mem vm.current_thread vm

/-- `Vm::execute_frame`: when not resuming, commit thread updates and
restart at thread 0; then resume the frame. -/
def Vm.execute_frame (fuel : Nat) (mem : List Nat) (vm : Vm) (input : InputState) : FrameRun :=
  let vm :=
    if !vm.resume_pending then { vm.update_threads with current_thread := 0 }
    else vm
  Vm.resume_frame fuel mem vm input

/-- A concrete VM state (fresh VM without bypass). -/
def vm0 : Vm := Vm.new false

/-- An input state with nothing held. -/
def inputNone : InputState :=
  { up := false, left := false, right := false, down := false, action := false, turbo := false }

/-- An input state with only right held. -/
def inputRight : InputState :=
  { up := false, left := false, right := true, down := false, action := false, turbo := false }

/-- An input state with up, left, down and action held. -/
def inputMany : InputState :=
  { up := true, left := true, right := false, down := true, action := true, turbo := false }

/-! Part 4: the video sequencer and polygon decoder from
src/engine/src/video.rs.  Calls into the `Gfx` trait are recorded as a
list of events; the read-only view of `Resources` that `push_command`
uses is a record of the palette / cinematic / alt-video buffers plus
the string table. -/

/-- After `enum Page`. -/
inductive Page where
  | Zero
  | One
  | Two
  | Three
deriving DecidableEq

/-- After `enum BlendMode`. -/
inductive BlendMode where
  | Solid (c : Nat)
  | Mask (m : Nat)
  | Blend
deriving DecidableEq

/-- After `struct Polygon`: a fixed array of 50 points plus the count
of valid ones. -/
structure Polygon where
  points : List (Int × Int)
  num_points : Nat
  blend : BlendMode
deriving DecidableEq

/-- One call into the `Gfx` trait. -/
inductive GfxEvent where
  | blit (p : Page)
  | drawPolygon (poly : Polygon)
  | fillPage (p : Page) (color : Nat)
  | selectPage (p : Page)
  | copyPage (src dest : Page) (scroll : Int)
  | setPalette (pal : List (Nat × Nat × Nat))
  | drawString (msg : String) (color : Nat) (x y : Int)
deriving DecidableEq

/-- The sequencer state, after `struct Video` (minus the gfx handle). -/
structure VideoState where
  requested_palette : Option (List (Nat × Nat × Nat))
  current_page : Page
  working_page_a : Page
  working_page_b : Page
deriving DecidableEq

/-- `Video::new` state: current = One, a = One, b = Two. -/
def VideoState.new : VideoState :=
  { requested_palette := none
    current_page := .One
    working_page_a := .One
    working_page_b := .Two }

/-- `Video::get_page`. -/
def VideoState.get_page (v : VideoState) (page_id : Nat) : Page :=
  if page_id = 0 then .Zero
  else if page_id = 1 then .One
  else if page_id = 2 then .Two
  else if page_id = 3 then .Three
  else if page_id = 0xff then v.working_page_b
  else if page_id = 0xfe then v.working_page_a
  else .Zero

/-- One palette color from two consecutive bytes (the body of the
`for n in 0..16` loop of the Palette arm of `push_command`). -/
def palette_entry (buffer : List Nat) (offset n : Nat) : Nat × Nat × Nat :=
  let c0 := buffer.getD (offset + n * 2) 0 % 256
  let c1 := buffer.getD (offset + n * 2 + 1) 0 % 256
  let r := ((c0 &&& 0x0f) <<< 2 ||| (c0 &&& 0x0f) >>> 2) <<< 2
  let g := ((c1 &&& 0xf0) >>> 2 ||| (c1 &&& 0xf0) >>> 6) <<< 2
  let b := ((c1 &&& 0x0f) >>> 2 ||| (c1 &&& 0x0f) <<< 2) <<< 2
  (r, g, b)

/-- The 16 palette colors at `palette_id * 32`. -/
def compute_palette (buffer : List Nat) (offset : Nat) : List (Nat × Nat × Nat) :=
  (List.range 16).map (palette_entry buffer offset)

/-- The string lookup loop of the DrawString arm: first match wins. -/
def findString : List (Nat × String) → Nat → Option String
  | [], _ => none
  | (i, m) :: rest, id => if i = id then some m else findString rest id

/-- The point-reading loop of `do_draw` (video.rs lines 240-252):
index `n` counts up while `remaining` counts down; writing at an index
outside the 50-point array is a panic. -/
def points_loop (buffer : List Nat) (zoom x_min y_min x_bound : Int) (num_points : Nat) :
    Nat → Nat → Nat → List (Int × Int) → Option (List (Int × Int) × Nat)
  | _, 0, addr, pts => some (pts, addr)
  | n, remaining + 1, addr, pts => do
    let (px, a) ← readU8 buffer addr
    let (py, a) ← readU8 buffer a
    let x := (px : Int) * zoom
    let y := (py : Int) * zoom
    let x_off : Int := if x_bound = 0 ∧ num_points = 4 ∧ 2 ≤ n then 1 else 0
    if n < 50 then
      points_loop buffer zoom x_min y_min x_bound num_points (n + 1) remaining a
        (pts.set n (x + x_min - x_off, y + y_min))
    else none

/-- The child loop of the hierarchical branch of `do_draw` (video.rs
lines 262-279); `step` is the recursive call into `do_draw` at one
less fuel. -/
def run_children (step : Nat → Int → Int → Nat → Option (List GfxEvent)) (buffer : List Nat)
    (zoom x y : Int) : Nat → Nat → Option (List GfxEvent × Nat)
  | 0, addr => some ([], addr)
  | k + 1, addr => do
    let (off, a) ← readU16 buffer addr
    let (cxb, a) ← readU8 buffer a
    let (cyb, a) ← readU8 buffer a
    let child_x := x + (cxb : Int) * zoom
    let child_y := y + (cyb : Int) * zoom
    let (color, a) ←
      if off &&& 0x8000 ≠ 0 then do
        let (c, a2) ← readU8 buffer a
        let (_, a3) ← readU8 buffer a2
        some (c, a3)
      else some ((0xff : Nat), a)
    let evs ← step color child_x child_y ((off &&& 0x7fff) * 2)
    let (rest, aEnd) ← run_children step buffer zoom x y k a
    some (evs ++ rest, aEnd)

/-- `Video::do_draw` (video.rs lines 192-283), fuelled on recursion
depth; `none` stands for a panic (reads out of range, more than 50
points, invalid polygon mode) or exhausted fuel. -/
def do_draw : Nat → Nat → Int → Int → Int → Nat → List Nat → Option (List GfxEvent)
  | 0, _, _, _, _, _, _ => none
  | fuel + 1, color, x, y, zoom, offset, buffer => do
    let (mode, a) ← readU8 buffer offset
    if 0xc0 ≤ mode then do
      let (xb, a) ← readU8 buffer a
      let (yb, a) ← readU8 buffer a
      let (np, a) ← readU8 buffer a
      let x_bound := (xb : Int) * zoom
      let y_bound := (yb : Int) * zoom
      let x_min := x - Int.tdiv x_bound 2
      let x_max := x + Int.tdiv x_bound 2
      let y_min := y - Int.tdiv y_bound 2
      let y_max := y + Int.tdiv y_bound 2
      if x_min > 319 ∨ x_max < 0 ∨ y_min > 199 ∨ y_max < 0 then some []
      else
        let color := if color &&& 0x80 ≠ 0 then mode &&& 0x3f else color
        let blend :=
          if color < 0x10 then BlendMode.Solid color
          else if 0x10 < color then BlendMode.Blend
          else BlendMode.Mask 0x8
        if x_bound = 0 ∧ y_bound = 1 ∧ np = 4 then
          let pts := (((((List.replicate 50 ((0 : Int), (0 : Int))).set 0 (x, y)).set 1
            (x - 1, y)).set 2 (x - 1, y + 1)).set 3 (x, y + 1))
          some [.drawPolygon { points := pts, num_points := np, blend := blend }]
        else do
          let (pts, _) ← points_loop buffer zoom x_min y_min x_bound np 0 np a
            (List.replicate 50 ((0 : Int), (0 : Int)))
          some [.drawPolygon { points := pts, num_points := np, blend := blend }]
    else if mode &&& 0x3f = 2 then do
      let (xbase, a) ← readU8 buffer a
      let (ybase, a) ← readU8 buffer a
      let x := x - (xbase : Int) * zoom
      let y := y - (ybase : Int) * zoom
      let (nchild, a) ← readU8 buffer a
      let (evs, _) ← run_children (fun c cx cy off => do_draw fuel c cx cy zoom off buffer)
        buffer zoom x y (nchild + 1) a
      some evs
    else none

/-- `Video::draw` (video.rs lines 174-190): color starts at 0xff, the
buffer comes from the command's polygon source (panic when that buffer
is not loaded), and the decoder runs at `zoom / 64`. -/
def video_draw (fuel : Nat) (cmd : DrawCommand) (cinematic alt_video : Option (List Nat)) :
    Option (List GfxEvent) :=
  let color := 0xff
  match cmd.polygon.source with
  | .Cinematic =>
    match cinematic with
    | none => none
    | some buffer =>
      do_draw fuel color cmd.x cmd.y (Int.tdiv cmd.zoom 64) cmd.polygon.buffer_offset buffer
  | .AltVideo =>
    match alt_video with
    | none => none
    | some buffer =>
      do_draw fuel color cmd.x cmd.y (Int.tdiv cmd.zoom 64) cmd.polygon.buffer_offset buffer

/-- The read-only view of `Resources` (plus the string table) that
`Video::push_command` consumes. -/
structure VideoBuffers where
  palette : Option (List Nat)
  cinematic : Option (List Nat)
  alt_video : Option (List Nat)
  strings : List (Nat × String)

/-- `Video::push_command` (video.rs lines 79-160): returns the new
sequencer state and the gfx calls made, `none` for a panic. -/
def push_command (fuel : Nat) (v : VideoState) (res : VideoBuffers) :
    VideoCommand → Option (VideoState × List GfxEvent)
  | .Draw cmd => (video_draw fuel cmd res.cinematic res.alt_video).map fun evs => (v, evs)
  | .Palette pal =>
    match res.palette with
    | none => none
    | some buffer =>
      let offset := pal.palette_id * 32
      if offset + 32 ≤ buffer.length then
        some ({ v with requested_palette := some (compute_palette buffer offset) }, [])
      else none
  | .FillVideoPage fill => some (v, [.fillPage (v.get_page fill.page_id) fill.color])
  | .SelectVideoPage sel =>
    let p := v.get_page sel.page_id
    some ({ v with current_page := p }, [.selectPage p])
  | .CopyVideoPage copy =>
    if copy.src_page_id = copy.dest_page_id then some (v, [])
    else
      let sds : Page × Page × Int :=
        if 0xfe ≤ copy.src_page_id then
          (v.get_page copy.src_page_id, v.get_page copy.dest_page_id, 0)
        else if copy.src_page_id &&& 0x80 = 0 then
          (v.get_page (copy.src_page_id &&& 0xbf), v.get_page copy.dest_page_id, 0)
        else
          (v.get_page (copy.src_page_id &&& 0x3), v.get_page copy.dest_page_id, copy.scroll)
      some (v, [.copyPage sds.1 sds.2.1 sds.2.2])
  | .DrawString strc =>
    match findString res.strings strc.string_id with
    | some msg => some (v, [.drawString msg strc.color (((strc.x : Int) - 1) * 8) (strc.y : Int)])
    | none => some (v, [])
  | .Blit blit =>
    let v :=
      if blit.page_id = 0xff then
        { v with working_page_a := v.working_page_b, working_page_b := v.working_page_a }
      else if blit.page_id = 0xfe then v
      else { v with working_page_a := v.get_page blit.page_id }
    let pe : List GfxEvent × VideoState :=
      match v.requested_palette with
      | some pal => ([.setPalette pal], { v with requested_palette := none })
      | none => ([], v)
    some (pe.2, pe.1 ++ [.blit pe.2.working_page_a])

/-- Count the `set_palette` calls in an event list. -/
def countSetPalette : List GfxEvent → Nat
  | [] => 0
  | .setPalette _ :: rest => countSetPalette rest + 1
  | _ :: rest => countSetPalette rest

/-! Claim-side polygon decoder for claim C5, written from the claim's
words: identical to `do_draw` except that the bounding extents are the
encoded bound bytes multiplied by the Draw command's zoom value itself
(carried here as `zoomBounds`), not by the decoder's `zoom / 64`. -/

/-- Modelled from the claim: `do_draw` with the bounding extents
computed as `byte * zoomBounds` where `zoomBounds` is the command's
literal zoom; all other uses of zoom are unchanged. -/
def do_draw_claim : Nat → Nat → Int → Int → Int → Int → Nat → List Nat → Option (List GfxEvent)
  | 0, _, _, _, _, _, _, _ => none
  | fuel + 1, color, x, y, zoomBounds, zoom, offset, buffer => do
    let (mode, a) ← readU8 buffer offset
    if 0xc0 ≤ mode then do
      let (xb, a) ← readU8 buffer a
      let (yb, a) ← readU8 buffer a
      let (np, a) ← readU8 buffer a
      let x_bound := (xb : Int) * zoomBounds
      let y_bound := (yb : Int) * zoomBounds
      let x_min := x - Int.tdiv x_bound 2
      let x_max := x + Int.tdiv x_bound 2
      let y_min := y - Int.tdiv y_bound 2
      let y_max := y + Int.tdiv y_bound 2
      if x_min > 319 ∨ x_max < 0 ∨ y_min > 199 ∨ y_max < 0 then some []
      else
        let color := if color &&& 0x80 ≠ 0 then mode &&& 0x3f else color
        let blend :=
          if color < 0x10 then BlendMode.Solid color
          else if 0x10 < color then BlendMode.Blend
          else BlendMode.Mask 0x8
        if x_bound = 0 ∧ y_bound = 1 ∧ np = 4 then
          let pts := (((((List.replicate 50 ((0 : Int), (0 : Int))).set 0 (x, y)).set 1
            (x - 1, y)).set 2 (x - 1, y + 1)).set 3 (x, y + 1))
          some [.drawPolygon { points := pts, num_points := np, blend := blend }]
        else do
          let (pts, _) ← points_loop buffer zoom x_min y_min x_bound np 0 np a
            (List.replicate 50 ((0 : Int), (0 : Int)))
          some [.drawPolygon { points := pts, num_points := np, blend := blend }]
    else if mode &&& 0x3f = 2 then do
      let (xbase, a) ← readU8 buffer a
      let (ybase, a) ← readU8 buffer a
      let x := x - (xbase : Int) * zoom
      let y := y - (ybase : Int) * zoom
      let (nchild, a) ← readU8 buffer a
      let (evs, _) ← run_children
        (fun c cx cy off => do_draw_claim fuel c cx cy zoomBounds zoom off buffer)
        buffer zoom x y (nchild + 1) a
      some evs
    else none

/-- Modelled from the claim: the draw pipeline with the claim-side
bound computation. -/
def video_draw_claim (fuel : Nat) (cmd : DrawCommand)
    (cinematic alt_video : Option (List Nat)) : Option (List GfxEvent) :=
  let color := 0xff
  match cmd.polygon.source with
  | .Cinematic =>
    match cinematic with
    | none => none
    | some buffer =>
      do_draw_claim fuel color cmd.x cmd.y cmd.zoom (Int.tdiv cmd.zoom 64)
        cmd.polygon.buffer_offset buffer
  | .AltVideo =>
    match alt_video with
    | none => none
    | some buffer =>
      do_draw_claim fuel color cmd.x cmd.y cmd.zoom (Int.tdiv cmd.zoom 64)
        cmd.polygon.buffer_offset buffer

/-- A concrete one-polygon cinematic blob: mode 0xC0, bound bytes 2 and
0, one point (5, 7). -/
def c5Buffer : List Nat := [0xC0, 2, 0, 1, 5, 7]

/-- The zoom operand of a decoded Draw instruction. -/
def drawZoom : Option (Instruction × Nat) → Option VarOrConst
  | some (.Draw _ _ _ z, _) => some z
  | _ => none

/-- A concrete Draw command at zoom 0x40 (as a bit-7 polygon opcode
emits). -/
def c5Command : DrawCommand :=
  { polygon := { buffer_offset := 0, source := .Cinematic }
    x := 10
    y := 10
    zoom := 0x40 }

/-- The event list `video_draw` emits for `c5Command` on `c5Buffer`. -/
def c5Events : List GfxEvent :=
  [.drawPolygon { points := (List.replicate 50 ((0 : Int), (0 : Int))).set 0 (14, 17)
                  num_points := 1
                  blend := .Solid 0 }]

/-! Theorems.  First the helper lemmas showing that the decoder's
`size` scratch field commutes with every bit-level operation, used to
compare the source step with the spec-side step on observables. -/

theorem rcr_size (s : Decoder) (k : Nat) (cf : Bool) :
    rcr { s with size := k } cf = ((rcr s cf).1, { (rcr s cf).2 with size := k }) := rfl

theorem read_rev_u32_size (s : Decoder) (k : Nat) :
    read_rev_u32 { s with size := k } =
      (read_rev_u32 s).map (fun p => (p.1, { p.2 with size := k })) := by
  unfold read_rev_u32
  by_cases h : s.input_cursor < 4
  · simp [h, Except.map]
  · by_cases h2 : s.input_cursor - 4 + 4 ≤ s.input.length <;>
      simp [h, h2, Except.map]

theorem next_chunk_size (s : Decoder) (k : Nat) :
    next_chunk { s with size := k } =
      (next_chunk s).map (fun p => (p.1, { p.2 with size := k })) := by
  unfold next_chunk
  rw [rcr_size]
  by_cases h : (rcr s false).2.check = 0
  · rw [if_pos (show ({ (rcr s false).2 with size := k } : Decoder).check = 0 from h), if_pos h,
      read_rev_u32_size]
    cases hr : read_rev_u32 (rcr s false).2 with
    | error e => simp [Except.map]
    | ok p => simp only [Except.map]; rfl
  · rw [if_neg (show ¬ ({ (rcr s false).2 with size := k } : Decoder).check = 0 from h), if_neg h]
    simp [Except.map]

theorem get_code_aux_size (n : Nat) : ∀ (c k : Nat) (s : Decoder),
    get_code_aux c n { s with size := k } =
      (get_code_aux c n s).map (fun p => (p.1, { p.2 with size := k })) := by
  induction n with
  | zero => intro c k s; rfl
  | succ n ih =>
    intro c k s
    unfold get_code_aux
    rw [next_chunk_size]
    cases h : next_chunk s with
    | error e => rfl
    | ok p => simpa [Except.map] using ih _ k p.2

theorem get_code_size (n : Nat) (k : Nat) (s : Decoder) :
    get_code n { s with size := k } =
      (get_code n s).map (fun p => (p.1, { p.2 with size := k })) :=
  get_code_aux_size n 0 k s

theorem write_byte_size (s : Decoder) (k v : Nat) :
    write_byte { s with size := k } v =
      (write_byte s v).map (fun t => { t with size := k }) := by
  unfold write_byte
  by_cases h : s.output_cursor < s.output.length <;> simp [h, Except.map]

theorem literal_loop_size (n : Nat) : ∀ (k : Nat) (s : Decoder),
    literal_loop n { s with size := k } =
      (literal_loop n s).map (fun t => { t with size := k }) := by
  induction n with
  | zero => intro k s; rfl
  | succ n ih =>
    intro k s
    unfold literal_loop
    rw [get_code_size]
    cases h : get_code 8 s with
    | error e => rfl
    | ok p =>
      simp only [Except.map]
      rw [write_byte_size]
      cases hw : write_byte p.2 p.1 with
      | error e => rfl
      | ok t => simpa [Except.map] using ih k t

theorem copy_loop_size (n : Nat) : ∀ (dist k : Nat) (s : Decoder),
    copy_loop dist n { s with size := k } =
      (copy_loop dist n s).map (fun t => { t with size := k }) := by
  induction n with
  | zero => intro dist k s; rfl
  | succ n ih =>
    intro dist k s
    unfold copy_loop
    by_cases h : s.output_cursor + dist < s.output.length
    · simp only [h, if_true]
      rw [write_byte_size]
      cases hw : write_byte s (s.output.getD (s.output_cursor + dist) 0) with
      | error e => rfl
      | ok t => simpa [Except.map] using ih dist k t
    · simp [h, Except.map]

theorem dec_unk1_size (n a k : Nat) (s : Decoder) :
    dec_unk1 n a { s with size := k } =
      (dec_unk1 n a s).map (fun t => { t with size := k }) := by
  unfold dec_unk1
  rw [get_code_size]
  cases h : get_code n s with
  | error e => rfl
  | ok p =>
    simp only [Except.map]
    exact literal_loop_size (p.1 + a + 1) k
      { p.2 with data_size := p.2.data_size - ((p.1 + a + 1 : Nat) : Int) }

theorem dec_unk2_spec (kc n : Nat) (s : Decoder) :
    dec_unk2 kc { s with size := n } =
      (spec_backref kc (n + 1) s).map (fun t => { t with size := n }) := by
  unfold dec_unk2 spec_backref
  rw [get_code_size]
  cases h : get_code kc s with
  | error e => rfl
  | ok p =>
    simp only [Except.map]
    exact copy_loop_size (n + 1) p.1 n
      { p.2 with data_size := p.2.data_size - ((n + 1 : Nat) : Int) }

theorem spec_literal_eq (n a : Nat) (s : Decoder) : spec_literal n a s = dec_unk1 n a s := rfl

theorem obsResult_map_size (r : Except DecErr Decoder) (k : Nat) :
    obsResult (r.map (fun t => { t with size := k })) = obsResult r := by
  cases r <;> rfl

/-- Claim C1 counterexample. -/
theorem c1_counterexample :
    obsResult (decode_body c1State) =
        .ok ⟨0, 1, 7, [10, 14, 14, 14, 14, 15, 16, 17], 0, [], 0⟩ ∧
      obsResult (claim_body c1State) =
        .ok ⟨0, 1, 8, [10, 11, 14, 14, 14, 15, 16, 17], 1, [], 0⟩ ∧
      obsResult (decode_body c1State) ≠ obsResult (claim_body c1State) :=
  ⟨by decide, by decide, by decide⟩

/-- Claim C1 amended. -/
theorem c1_theorem (s : Decoder) :
    obsResult (decode_body s) = obsResult (amended_body s) := by
  unfold decode_body amended_body
  cases h : next_chunk s with
  | error e => rfl
  | ok p =>
    obtain ⟨a, s1⟩ := p
    simp only [h]
    cases a with
    | false =>
      simp only [Bool.not_false, if_true]
      rw [next_chunk_size]
      cases h2 : next_chunk s1 with
      | error e => simp [Except.map]
      | ok q =>
        obtain ⟨b, s2⟩ := q
        simp only [Except.map]
        cases b with
        | false =>
          simp only [Bool.not_false, if_true]
          rw [dec_unk1_size, obsResult_map_size, spec_literal_eq]
        | true =>
          simp only [Bool.not_true, Bool.false_eq_true, if_false]
          rw [dec_unk2_spec, obsResult_map_size]
    | true =>
      simp only [Bool.not_true, Bool.false_eq_true, if_false]
      cases h2 : get_code 2 s1 with
      | error e => rfl
      | ok q =>
        obtain ⟨c, s2⟩ := q
        by_cases hc3 : c = 3
        · simp only [hc3, if_true]
          rw [spec_literal_eq]
        · by_cases hc2 : c < 2
          · simp only [hc3, hc2, if_false, if_true]
            rw [dec_unk2_spec, obsResult_map_size]
          · simp only [hc3, hc2, if_false]
            cases h3 : get_code 8 s2 with
            | error e => rfl
            | ok r =>
              obtain ⟨v, s3⟩ := r
              dsimp only
              rw [dec_unk2_spec, obsResult_map_size]

theorem okPairSnd {ε α β : Type} {x : α × β} {b : α} {t : β}
    (h : (Except.ok x : Except ε (α × β)) = .ok (b, t)) : x.2 = t :=
  congrArg Prod.snd (Except.ok.inj h)

theorem read_rev_u32_output (s : Decoder) (v : Nat) (t : Decoder)
    (h : read_rev_u32 s = .ok (v, t)) : t.output = s.output := by
  unfold read_rev_u32 at h
  by_cases h1 : s.input_cursor < 4
  · simp [h1] at h
  · by_cases h2 : s.input_cursor - 4 + 4 ≤ s.input.length
    · simp only [h1, h2, if_false, if_true] at h
      rw [← okPairSnd h]
    · simp [h1, h2] at h

theorem next_chunk_output (s : Decoder) (b : Bool) (t : Decoder)
    (h : next_chunk s = .ok (b, t)) : t.output = s.output := by
  unfold next_chunk at h
  by_cases hc : (rcr s false).2.check = 0
  · rw [if_pos hc] at h
    cases hr : read_rev_u32 (rcr s false).2 with
    | error e => rw [hr] at h; exact absurd h (by simp)
    | ok p =>
      obtain ⟨v2, s2⟩ := p
      rw [hr] at h
      dsimp only at h
      rw [← okPairSnd h]
      show s2.output = s.output
      exact read_rev_u32_output (rcr s false).2 v2 s2 hr
  · rw [if_neg hc] at h
    rw [← okPairSnd h]
    rfl

theorem get_code_aux_output (n : Nat) : ∀ (c v : Nat) (s t : Decoder),
    get_code_aux c n s = .ok (v, t) → t.output = s.output := by
  induction n with
  | zero =>
    intro c v s t h
    rw [← okPairSnd h]
  | succ n ih =>
    intro c v s t h
    unfold get_code_aux at h
    cases hn : next_chunk s with
    | error e => rw [hn] at h; exact absurd h (by simp)
    | ok p =>
      obtain ⟨b2, s2⟩ := p
      rw [hn] at h
      dsimp only at h
      rw [ih _ _ _ _ h]
      exact next_chunk_output _ _ _ hn

theorem get_code_output (n v : Nat) (s t : Decoder)
    (h : get_code n s = .ok (v, t)) : t.output = s.output :=
  get_code_aux_output n 0 v s t h

theorem write_byte_len (s : Decoder) (v : Nat) (t : Decoder)
    (h : write_byte s v = .ok t) : t.output.length = s.output.length := by
  unfold write_byte at h
  by_cases h1 : s.output_cursor < s.output.length
  · rw [if_pos h1] at h
    rw [← Except.ok.inj h]
    exact List.length_set ..
  · rw [if_neg h1] at h; exact absurd h (by simp)

theorem literal_loop_len (n : Nat) : ∀ (s t : Decoder),
    literal_loop n s = .ok t → t.output.length = s.output.length := by
  induction n with
  | zero => intro s t h; rw [← Except.ok.inj h]
  | succ n ih =>
    intro s t h
    unfold literal_loop at h
    cases hg : get_code 8 s with
    | error e => rw [hg] at h; exact absurd h (by simp)
    | ok p =>
      obtain ⟨v, u⟩ := p
      rw [hg] at h
      dsimp only at h
      cases hw : write_byte u v with
      | error e => rw [hw] at h; exact absurd h (by simp)
      | ok w =>
        rw [hw] at h
        rw [ih _ _ h, write_byte_len _ _ _ hw, get_code_output _ _ _ _ hg]

theorem copy_loop_len (n : Nat) : ∀ (dist : Nat) (s t : Decoder),
    copy_loop dist n s = .ok t → t.output.length = s.output.length := by
  induction n with
  | zero => intro dist s t h; rw [← Except.ok.inj h]
  | succ n ih =>
    intro dist s t h
    unfold copy_loop at h
    by_cases h1 : s.output_cursor + dist < s.output.length
    · rw [if_pos h1] at h
      cases hw : write_byte s (s.output.getD (s.output_cursor + dist) 0) with
      | error e => rw [hw] at h; exact absurd h (by simp)
      | ok w =>
        rw [hw] at h
        rw [ih _ _ _ h, write_byte_len _ _ _ hw]
    · rw [if_neg h1] at h; exact absurd h (by simp)

theorem dec_unk1_len (n a : Nat) (s t : Decoder)
    (h : dec_unk1 n a s = .ok t) : t.output.length = s.output.length := by
  unfold dec_unk1 at h
  cases hg : get_code n s with
  | error e => rw [hg] at h; exact absurd h (by simp)
  | ok p =>
    obtain ⟨v, u⟩ := p
    rw [hg] at h
    dsimp only at h
    rw [literal_loop_len _ _ _ h]
    show u.output.length = s.output.length
    exact congrArg List.length (get_code_output _ _ _ _ hg)

theorem dec_unk2_len (n : Nat) (s t : Decoder)
    (h : dec_unk2 n s = .ok t) : t.output.length = s.output.length := by
  unfold dec_unk2 at h
  cases hg : get_code n s with
  | error e => rw [hg] at h; exact absurd h (by simp)
  | ok p =>
    obtain ⟨v, u⟩ := p
    rw [hg] at h
    dsimp only at h
    rw [copy_loop_len _ _ _ _ h]
    show u.output.length = s.output.length
    exact congrArg List.length (get_code_output _ _ _ _ hg)

theorem decode_body_len (s t : Decoder)
    (h : decode_body s = .ok t) : t.output.length = s.output.length := by
  unfold decode_body at h
  cases hn : next_chunk s with
  | error e => rw [hn] at h; exact absurd h (by simp)
  | ok p =>
    obtain ⟨a, s1⟩ := p
    rw [hn] at h
    dsimp only at h
    have hs1 : s1.output = s.output := next_chunk_output _ _ _ hn
    cases a with
    | false =>
      simp only [Bool.not_false, if_true] at h
      cases hn2 : next_chunk { s1 with size := 1 } with
      | error e => rw [hn2] at h; exact absurd h (by simp)
      | ok q =>
        obtain ⟨b, s2⟩ := q
        rw [hn2] at h
        dsimp only at h
        have hs2 : s2.output = s1.output := next_chunk_output { s1 with size := 1 } b s2 hn2
        cases b with
        | false =>
          simp only [Bool.not_false, if_true] at h
          rw [dec_unk1_len _ _ _ _ h, hs2, hs1]
        | true =>
          simp only [Bool.not_true, Bool.false_eq_true, if_false] at h
          rw [dec_unk2_len _ _ _ h, hs2, hs1]
    | true =>
      simp only [Bool.not_true, Bool.false_eq_true, if_false] at h
      cases hg : get_code 2 s1 with
      | error e => rw [hg] at h; exact absurd h (by simp)
      | ok q =>
        obtain ⟨c, s2⟩ := q
        rw [hg] at h
        dsimp only at h
        have hs2 : s2.output = s1.output := get_code_output _ _ _ _ hg
        by_cases hc3 : c = 3
        · rw [if_pos hc3] at h
          rw [dec_unk1_len _ _ _ _ h, hs2, hs1]
        · rw [if_neg hc3] at h
          by_cases hc2 : c < 2
          · rw [if_pos hc2] at h
            rw [dec_unk2_len _ _ _ h]
            show s2.output.length = s.output.length
            rw [hs2, hs1]
          · rw [if_neg hc2] at h
            cases hg8 : get_code 8 s2 with
            | error e => rw [hg8] at h; exact absurd h (by simp)
            | ok r =>
              obtain ⟨v, s3⟩ := r
              rw [hg8] at h
              dsimp only at h
              rw [dec_unk2_len _ _ _ h]
              show s3.output.length = s.output.length
              rw [get_code_output _ _ _ _ hg8, hs2, hs1]

theorem decode_loop_len (fuel : Nat) : ∀ (s t : Decoder),
    decode_loop fuel s = .done t → t.output.length = s.output.length := by
  induction fuel with
  | zero => intro s t h; exact absurd h (by simp [decode_loop])
  | succ fuel ih =>
    intro s t h
    unfold decode_loop at h
    cases hb : decode_body s with
    | error e => rw [hb] at h; exact absurd h (by simp)
    | ok u =>
      rw [hb] at h
      dsimp only at h
      by_cases hd : u.data_size ≤ 0
      · rw [if_pos hd] at h
        rw [← DecRun.done.inj h]
        exact decode_body_len _ _ hb
      · rw [if_neg hd] at h
        rw [ih _ _ h]
        exact decode_body_len _ _ hb

theorem decode_run_len (fuel size packed_size : Nat) (input : List Nat) (t : Decoder)
    (h : decode_run fuel size packed_size input = .done t) : t.output.length = size := by
  unfold decode_run at h
  cases h1 : read_rev_u32 (Decoder.new size packed_size input) with
  | error e => rw [h1] at h; exact absurd h (by simp)
  | ok p =>
    obtain ⟨ds, sa⟩ := p
    rw [h1] at h
    dsimp only at h
    cases h2 : read_rev_u32 { sa with data_size := toI32 ds } with
    | error e => rw [h2] at h; exact absurd h (by simp)
    | ok q =>
      obtain ⟨cv, sb⟩ := q
      rw [h2] at h
      dsimp only at h
      cases h3 : read_rev_u32 { sb with crc := cv } with
      | error e => rw [h3] at h; exact absurd h (by simp)
      | ok r =>
        obtain ⟨ck, sc⟩ := r
        rw [h3] at h
        dsimp only at h
        rw [decode_loop_len fuel _ _ h]
        show sc.output.length = size
        rw [read_rev_u32_output _ _ _ h3]
        show sb.output.length = size
        rw [read_rev_u32_output _ _ _ h2]
        show sa.output.length = size
        rw [read_rev_u32_output _ _ _ h1]
        exact List.length_replicate ..



/-- Claim C2. -/
theorem c2_theorem (fuel size packed_size : Nat) (input : List Nat) (s : Decoder)
    (h : decode_run fuel size packed_size input = .done s) :
    ((decode fuel size packed_size input = .ok s.output) ↔ s.crc = 0) ∧
      (s.crc ≠ 0 → decode fuel size packed_size input = .fail .CrcCheckFailed) ∧
      (∀ out, decode fuel size packed_size input = .ok out → out.length = size) := by
  have hdec : decode fuel size packed_size input =
      if s.crc ≠ 0 then .fail .CrcCheckFailed else .ok s.output := by
    unfold decode; rw [h]
  refine ⟨⟨fun hok => ?_, fun hz => ?_⟩, fun hnz => ?_, fun out hout => ?_⟩
  · by_contra hnz
    rw [hdec, if_pos hnz] at hok
    exact absurd hok (by simp)
  · rw [hdec, if_neg (by simp [hz])]
  · rw [hdec, if_pos hnz]
  · rw [hdec] at hout
    by_cases hnz : s.crc ≠ 0
    · rw [if_pos hnz] at hout; exact absurd hout (by simp)
    · rw [if_neg hnz] at hout
      rw [← DecOutcome.ok.inj hout]
      exact decode_run_len fuel size packed_size input s h

/-- Claim C2 witness. -/
theorem c2_witness :
    decode_run 1 1 12 c2Input = DecRun.done c2State ∧
      ((decode 1 1 12 c2Input = .ok c2State.output) ↔ c2State.crc = 0) ∧
      (c2State.crc ≠ 0 → decode 1 1 12 c2Input = .fail .CrcCheckFailed) ∧
      (∀ out, decode 1 1 12 c2Input = .ok out → out.length = 1) :=
  ⟨by decide, c2_theorem 1 1 12 c2Input c2State (by decide)⟩

theorem requestIdx_get_same (es : List MemEntry) (i : Nat) (e : MemEntry)
    (h : es[i]? = some e) : (requestIdx es i)[i]? = some { e with state := .Requested } := by
  unfold requestIdx
  rw [h]
  exact List.getElem?_set_self (List.getElem?_eq_some.mp h).1

theorem requestIdx_get_ne (es : List MemEntry) (i j : Nat) (h : j ≠ i) :
    (requestIdx es j)[i]? = es[i]? := by
  unfold requestIdx
  cases hj : es[j]? with
  | none => rfl
  | some e => exact List.getElem?_set_ne h

theorem part_idx_ne (p : GamePart) :
    p.palette ≠ p.bytecode ∧ p.palette ≠ p.cinematic ∧ p.bytecode ≠ p.cinematic ∧
      ∀ i, p.alt_video = some i → i ≠ p.palette ∧ i ≠ p.bytecode ∧ i ≠ p.cinematic := by
  cases p <;>
    refine ⟨by decide, by decide, by decide, fun i hi => ?_⟩ <;>
    simp only [GamePart.alt_video, Option.some.injEq, reduceCtorEq] at hi <;>
    first
      | exact absurd hi (by simp)
      | (subst hi; exact ⟨by decide, by decide, by decide⟩)

theorem request_part_entries (r : Resources) (part : GamePart) :
    (r.request_part part).entries =
      (match part.alt_video with
       | some i =>
         requestIdx (requestIdx (requestIdx (requestIdx r.entries part.palette)
           part.bytecode) part.cinematic) i
       | none =>
         requestIdx (requestIdx (requestIdx r.entries part.palette)
           part.bytecode) part.cinematic) := rfl

theorem request_part_get (r : Resources) (part : GamePart) (i : Nat) (e : MemEntry)
    (hi : r.entries[i]? = some e)
    (hreq : i = part.palette ∨ i = part.bytecode ∨ i = part.cinematic) :
    (r.request_part part).entries[i]? = some { e with state := .Requested } := by
  obtain ⟨h1, h2, h3, halt⟩ := part_idx_ne part
  rw [request_part_entries]
  rcases hreq with h | h | h <;> subst h
  · cases halt2 : part.alt_video with
    | none =>
      rw [requestIdx_get_ne _ _ _ (Ne.symm h2), requestIdx_get_ne _ _ _ (Ne.symm h1)]
      exact requestIdx_get_same _ _ _ hi
    | some ai =>
      obtain ⟨haP, haB, haC⟩ := halt ai halt2
      rw [requestIdx_get_ne _ _ _ haP, requestIdx_get_ne _ _ _ (Ne.symm h2),
        requestIdx_get_ne _ _ _ (Ne.symm h1)]
      exact requestIdx_get_same _ _ _ hi
  · cases halt2 : part.alt_video with
    | none =>
      rw [requestIdx_get_ne _ _ _ (Ne.symm h3)]
      exact requestIdx_get_same _ _ _ (by rw [requestIdx_get_ne _ _ _ h1, hi])
    | some ai =>
      obtain ⟨haP, haB, haC⟩ := halt ai halt2
      rw [requestIdx_get_ne _ _ _ haB, requestIdx_get_ne _ _ _ (Ne.symm h3)]
      exact requestIdx_get_same _ _ _ (by rw [requestIdx_get_ne _ _ _ h1, hi])
  · cases halt2 : part.alt_video with
    | none =>
      exact requestIdx_get_same _ _ _
        (by rw [requestIdx_get_ne _ _ _ h3, requestIdx_get_ne _ _ _ h2, hi])
    | some ai =>
      obtain ⟨haP, haB, haC⟩ := halt ai halt2
      rw [requestIdx_get_ne _ _ _ haC]
      exact requestIdx_get_same _ _ _
        (by rw [requestIdx_get_ne _ _ _ h3, requestIdx_get_ne _ _ _ h2, hi])

theorem load_requested_get (loader : Loader) (r : Resources) (i : Nat) (e : MemEntry)
    (h : r.entries[i]? = some e) :
    (Resources.load_requested loader r).entries[i]? = some (loadEntry loader e) := by
  show (r.entries.map (loadEntry loader))[i]? = some (loadEntry loader e)
  rw [List.getElem?_map, h]
  rfl

theorem unload_get (r : Resources) (i : Nat) :
    r.unload.entries[i]? = (r.entries[i]?).map (fun e => { e with state := .NotNeeded }) := by
  show (r.entries.map _)[i]? = _
  exact List.getElem?_map ..

/-- Claim C3 counterexample. -/
theorem c3_counterexample :
    (Resources.prepare_part failLoader c3Resources GamePart.One).bytecode = none ∧
      (Resources.prepare_part failLoader c3Resources GamePart.One).palette = none ∧
      (Resources.prepare_part failLoader c3Resources GamePart.One).cinematic = none :=
  ⟨by decide, by decide, by decide⟩

/-- Claim C3 amended. -/
theorem c3_theorem (loader : Loader) (r : Resources) (part : GamePart)
    (hnl : r.loaded_part ≠ some part)
    (eP eB eC : MemEntry) (dP dB dC : List Nat)
    (hP : r.entries[part.palette]? = some eP)
    (hB : r.entries[part.bytecode]? = some eB)
    (hC : r.entries[part.cinematic]? = some eC)
    (hlP : loader { eP with state := .Requested } = .ok dP) (hdP : dP ≠ [])
    (hlB : loader { eB with state := .Requested } = .ok dB) (hdB : dB ≠ [])
    (hlC : loader { eC with state := .Requested } = .ok dC) (hdC : dC ≠ []) :
    (Resources.prepare_part loader r part).palette = some dP ∧
      (Resources.prepare_part loader r part).bytecode = some dB ∧
      (Resources.prepare_part loader r part).cinematic = some dC ∧
      dP.length ≠ 0 ∧ dB.length ≠ 0 ∧ dC.length ≠ 0 := by
  have hprep : Resources.prepare_part loader r part =
      { Resources.load_requested loader (r.unload.request_part part) with
          loaded_part := some part } := by
    unfold Resources.prepare_part
    rw [if_neg hnl]
  have uget : ∀ (i : Nat) (e : MemEntry), r.entries[i]? = some e →
      r.unload.entries[i]? = some { e with state := .NotNeeded } := by
    intro i e he
    rw [unload_get, he]
    rfl
  have load3 : ∀ (i : Nat) (e : MemEntry) (d : List Nat),
      (i = part.palette ∨ i = part.bytecode ∨ i = part.cinematic) →
      r.entries[i]? = some e →
      loader { e with state := .Requested } = .ok d →
      (Resources.load_requested loader (r.unload.request_part part)).entries[i]? =
        some { e with state := .Loaded d } := by
    intro i e d hreq he hl
    have h1 : (r.unload.request_part part).entries[i]? =
        some { e with state := .Requested } :=
      request_part_get r.unload part i { e with state := .NotNeeded } (uget i e he) hreq
    rw [load_requested_get _ _ _ _ h1]
    unfold loadEntry
    dsimp only
    rw [hl]
  have accP := load3 part.palette eP dP (Or.inl rfl) hP hlP
  have accB := load3 part.bytecode eB dB (Or.inr (Or.inl rfl)) hB hlB
  have accC := load3 part.cinematic eC dC (Or.inr (Or.inr rfl)) hC hlC
  refine ⟨?_, ?_, ?_, fun h => hdP (List.eq_nil_of_length_eq_zero h),
    fun h => hdB (List.eq_nil_of_length_eq_zero h),
    fun h => hdC (List.eq_nil_of_length_eq_zero h)⟩
  · rw [hprep]
    unfold Resources.palette Resources.segment
    simp only [Option.bind_some, Option.some_bind]
    rw [accP]
    rfl
  · rw [hprep]
    unfold Resources.bytecode Resources.segment
    simp only [Option.bind_some, Option.some_bind]
    rw [accB]
    rfl
  · rw [hprep]
    unfold Resources.cinematic Resources.segment
    simp only [Option.bind_some, Option.some_bind]
    rw [accC]
    rfl

/-- Claim C3 witness. -/
theorem c3_witness :
    c3wResources.loaded_part ≠ some GamePart.One ∧
      ((Resources.prepare_part okLoader c3wResources GamePart.One).palette = some [7] ∧
        (Resources.prepare_part okLoader c3wResources GamePart.One).bytecode = some [7] ∧
        (Resources.prepare_part okLoader c3wResources GamePart.One).cinematic = some [7] ∧
        ([7] : List Nat).length ≠ 0 ∧ ([7] : List Nat).length ≠ 0 ∧
        ([7] : List Nat).length ≠ 0) :=
  ⟨by decide,
    c3_theorem okLoader c3wResources GamePart.One (by decide)
      defaultEntry defaultEntry defaultEntry [7] [7] [7]
      (by decide) (by decide) (by decide)
      (by decide) (by decide) (by decide) (by decide) (by decide) (by decide)⟩

/-- Claim C10. -/
theorem c10_theorem (loader : Loader) (r : Resources) (resource_id : Nat)
    (h : resource_id > r.entries.length) :
    (Resources.load_part_or_entry loader r resource_id).requested_part =
        GamePart.fromId resource_id ∧
      (Resources.load_part_or_entry loader r resource_id).entries = r.entries ∧
      (Resources.load_part_or_entry loader r resource_id).loaded_part = r.loaded_part ∧
      (¬(0x3e80 ≤ resource_id ∧ resource_id ≤ 0x3e89) →
        (Resources.load_part_or_entry loader r resource_id).requested_part = none) := by
  have he : Resources.load_part_or_entry loader r resource_id =
      { r with requested_part := GamePart.fromId resource_id } := by
    unfold Resources.load_part_or_entry
    rw [if_pos h]
  refine ⟨by rw [he], by rw [he], by rw [he], fun hrange => ?_⟩
  rw [he]
  show GamePart.fromId resource_id = none
  unfold GamePart.fromId
  split_ifs with h1 h2 h3 h4 h5 h6 h7 h8 h9 h10 <;>
    first
      | rfl
      | (exfalso; apply hrange; constructor <;> omega)

/-- Claim C10 witness. -/
theorem c10_witness :
    (0x21 > c10Resources.entries.length) ∧
      ((Resources.load_part_or_entry failLoader c10Resources 0x21).requested_part =
          GamePart.fromId 0x21 ∧
        (Resources.load_part_or_entry failLoader c10Resources 0x21).entries =
          c10Resources.entries ∧
        (Resources.load_part_or_entry failLoader c10Resources 0x21).loaded_part =
          c10Resources.loaded_part ∧
        (¬(0x3e80 ≤ 0x21 ∧ 0x21 ≤ 0x3e89) →
          (Resources.load_part_or_entry failLoader c10Resources 0x21).requested_part = none)) :=
  ⟨by decide, c10_theorem failLoader c10Resources 0x21 (by decide)⟩

/-- Claim C4. -/
theorem c4_theorem (vm : Vm) (t : Nat) (ht : t < 64) :
    (vm.update_threads.thread_data t).paused = (vm.thread_data t).requested_pause ∧
      (vm.update_threads.thread_data t).requested_pc = 0xffff ∧
      ((vm.thread_data t).requested_pc ≠ 0xffff →
        (vm.update_threads.thread_data t).pc =
          (if (vm.thread_data t).requested_pc = 0xfffe then 0xffff
           else (vm.thread_data t).requested_pc)) ∧
      ((vm.thread_data t).requested_pc = 0xffff →
        (vm.update_threads.thread_data t).pc = (vm.thread_data t).pc) ∧
      ∀ vm', vm.execute (.SetVec t 0xfffe) = some (vm', .cont) →
        (vm'.update_threads.thread_data t).pc = 0xffff := by
  have hu : vm.update_threads.thread_data t = commitThread (vm.thread_data t) := by
    show (if t < 64 then _ else _) = _
    rw [if_pos ht]
  refine ⟨?_, ?_, ?_, ?_, ?_⟩
  · rw [hu]
    unfold commitThread
    by_cases hr : (vm.thread_data t).requested_pc = 0xffff <;> simp [hr]
  · rw [hu]
    unfold commitThread
    by_cases hr : (vm.thread_data t).requested_pc = 0xffff <;> simp [hr]
  · intro hr
    rw [hu]
    unfold commitThread
    simp [hr]
  · intro hr
    rw [hu]
    unfold commitThread
    simp [hr]
  · intro vm' hex
    have hex2 : Vm.execute vm (.SetVec t 0xfffe) =
        some (vm.set_thread t { vm.thread_at t with requested_pc := 0xfffe }, .cont) := by
      show (if t < 64 then _ else _) = _
      rw [if_pos ht]
    rw [hex2] at hex
    have hvm' : vm' = vm.set_thread t { vm.thread_at t with requested_pc := 0xfffe } :=
      (congrArg Prod.fst (Option.some.inj hex)).symm
    subst hvm'
    have h64 : (vm.set_thread t { vm.thread_at t with requested_pc := 0xfffe
      }).update_threads.thread_data t =
        commitThread { vm.thread_at t with requested_pc := 0xfffe } := by
      show (if t < 64 then commitThread (if t = t then _ else _) else _) = _
      rw [if_pos ht, if_pos rfl]
    rw [h64]
    unfold commitThread
    norm_num

/-- Claim C4 witness. -/
theorem c4_witness :
    (5 < 64) ∧
      ((vm0.update_threads.thread_data 5).paused = (vm0.thread_data 5).requested_pause ∧
        (vm0.update_threads.thread_data 5).requested_pc = 0xffff ∧
        ((vm0.thread_data 5).requested_pc ≠ 0xffff →
          (vm0.update_threads.thread_data 5).pc =
            (if (vm0.thread_data 5).requested_pc = 0xfffe then 0xffff
             else (vm0.thread_data 5).requested_pc)) ∧
        ((vm0.thread_data 5).requested_pc = 0xffff →
          (vm0.update_threads.thread_data 5).pc = (vm0.thread_data 5).pc) ∧
        ∀ vm', vm0.execute (.SetVec 5 0xfffe) = some (vm', .cont) →
          (vm'.update_threads.thread_data 5).pc = 0xffff) :=
  ⟨by decide, c4_theorem vm0 5 (by decide)⟩

/-- Claim C7. -/
theorem c7_theorem (vm : Vm) (input : InputState) :
    (vm.update_input input).var_data vars.HERO_POS_UP_DOWN =
        (if input.up then -1 else if input.down then 1 else 0) ∧
      (vm.update_input input).var_data vars.HERO_POS_JUMP_DOWN =
        (vm.update_input input).var_data vars.HERO_POS_UP_DOWN ∧
      (input.right = true → input.left = false →
        (vm.update_input input).var_data vars.HERO_POS_LEFT_RIGHT = 1) ∧
      (input.left = true →
        (vm.update_input input).var_data vars.HERO_POS_LEFT_RIGHT = -1) ∧
      (input.left = false → input.right = false →
        (vm.update_input input).var_data vars.HERO_POS_LEFT_RIGHT = 0) ∧
      (vm.update_input input).var_data vars.HERO_POS_MASK =
        ((if input.right then 1 else 0) + (if input.left then 2 else 0) +
          (if input.down then 4 else 0) + (if input.up then 8 else 0) : Int) ∧
      (vm.update_input input).var_data vars.HERO_ACTION =
        (if input.action then 1 else vm.var_data vars.HERO_ACTION) ∧
      (vm.update_input input).var_data vars.HERO_ACTION_POS_MASK =
        (vm.update_input input).var_data vars.HERO_POS_MASK +
          (if input.action then 0x80 else 0) := by
  obtain ⟨u, l, rt, d, act, tb⟩ := input
  cases u <;> cases l <;> cases rt <;> cases d <;> cases act <;>
    simp [Vm.update_input, Vm.set_var, Vm.get_var, vars.HERO_POS_UP_DOWN,
      vars.HERO_POS_JUMP_DOWN, vars.HERO_POS_LEFT_RIGHT, vars.HERO_POS_MASK,
      vars.HERO_ACTION, vars.HERO_ACTION_POS_MASK]

/-- Claim C7 witness. -/
theorem c7_witness :
    ((vm0.update_input inputRight).var_data vars.HERO_POS_LEFT_RIGHT = 1) ∧
      ((vm0.update_input inputMany).var_data vars.HERO_POS_UP_DOWN = -1) :=
  ⟨(c7_theorem vm0 inputRight).2.2.1 rfl rfl, (c7_theorem vm0 inputMany).1⟩

/-- Claim C8. -/
theorem c8_theorem (vm : Vm) (dest : Nat) :
    (vm.execute (.Call dest) = none ↔ vm.stack_ptr = 0xff) ∧
      (∀ v' r, vm.execute (.Call dest) = some (v', r) →
        r = .cont ∧ v'.stack_ptr = vm.stack_ptr + 1 ∧
          v'.stack vm.stack_ptr = (vm.thread_data vm.current_thread).pc ∧
          (v'.thread_data vm.current_thread).pc = dest ∧
          ∀ i, i ≠ vm.stack_ptr → v'.stack i = vm.stack i) ∧
      (vm.execute .Ret = none ↔ vm.stack_ptr = 0) ∧
      (∀ v' r, vm.execute .Ret = some (v', r) →
        r = .cont ∧ v'.stack_ptr = vm.stack_ptr - 1 ∧
          (v'.thread_data vm.current_thread).pc = vm.stack (vm.stack_ptr - 1) ∧
          v'.stack = vm.stack) ∧
      (vm.stack_ptr ≤ 0xff →
        (∀ v' r, vm.execute (.Call dest) = some (v', r) →
          v'.stack_ptr ≤ 0xff ∧ vm.stack_ptr < 0x100) ∧
        ∀ v' r, vm.execute .Ret = some (v', r) →
          v'.stack_ptr ≤ 0xff ∧ vm.stack_ptr - 1 < 0x100) := by
  have hcall : vm.execute (.Call dest) =
      (if vm.stack_ptr = 0xff then none
       else some ((({ vm with
          stack := fun i => if i = vm.stack_ptr then vm.cur.pc else vm.stack i,
          stack_ptr := vm.stack_ptr + 1 } : Vm)).set_cur_pc dest, .cont)) := rfl
  have hret : vm.execute .Ret =
      (if vm.stack_ptr = 0 then none
       else some ((({ vm with stack_ptr := vm.stack_ptr - 1 } : Vm)).set_cur_pc
          (vm.stack (vm.stack_ptr - 1)), .cont)) := rfl
  refine ⟨?_, ?_, ?_, ?_, ?_⟩
  · rw [hcall]
    by_cases hsp : vm.stack_ptr = 0xff <;> simp [hsp]
  · intro v' r h
    rw [hcall] at h
    by_cases hsp : vm.stack_ptr = 0xff
    · rw [if_pos hsp] at h; exact absurd h (by simp)
    · rw [if_neg hsp] at h
      obtain ⟨hv, hr⟩ := Prod.mk.injEq .. ▸ (Option.some.inj h)
      refine ⟨hr.symm, ?_, ?_, ?_, ?_⟩
      · rw [← hv]; rfl
      · rw [← hv]
        show (if vm.stack_ptr = vm.stack_ptr then vm.cur.pc else vm.stack vm.stack_ptr) = _
        rw [if_pos rfl]; rfl
      · rw [← hv]
        simp [Vm.set_cur_pc, Vm.set_thread, Vm.cur]
      · intro i hi
        rw [← hv]
        show (if i = vm.stack_ptr then vm.cur.pc else vm.stack i) = vm.stack i
        rw [if_neg hi]
  · rw [hret]
    by_cases hsp : vm.stack_ptr = 0 <;> simp [hsp]
  · intro v' r h
    rw [hret] at h
    by_cases hsp : vm.stack_ptr = 0
    · rw [if_pos hsp] at h; exact absurd h (by simp)
    · rw [if_neg hsp] at h
      obtain ⟨hv, hr⟩ := Prod.mk.injEq .. ▸ (Option.some.inj h)
      refine ⟨hr.symm, ?_, ?_, ?_⟩
      · rw [← hv]; rfl
      · rw [← hv]
        simp [Vm.set_cur_pc, Vm.set_thread, Vm.cur]
      · rw [← hv]; rfl
  · intro hb
    constructor
    · intro v' r h
      rw [hcall] at h
      by_cases hsp : vm.stack_ptr = 0xff
      · rw [if_pos hsp] at h; exact absurd h (by simp)
      · rw [if_neg hsp] at h
        obtain ⟨hv, -⟩ := Prod.mk.injEq .. ▸ (Option.some.inj h)
        have : v'.stack_ptr = vm.stack_ptr + 1 := by rw [← hv]; rfl
        constructor
        · omega
        · omega
    · intro v' r h
      rw [hret] at h
      by_cases hsp : vm.stack_ptr = 0
      · rw [if_pos hsp] at h; exact absurd h (by simp)
      · rw [if_neg hsp] at h
        obtain ⟨hv, -⟩ := Prod.mk.injEq .. ▸ (Option.some.inj h)
        have : v'.stack_ptr = vm.stack_ptr - 1 := by rw [← hv]; rfl
        constructor
        · omega
        · omega

/-- Claim C8 witness. -/
theorem c8_witness :
    (¬ vm0.execute (.Call 7) = none) ∧
      (vm0.execute (.Call 7) = none ↔ vm0.stack_ptr = 0xff) ∧
      (∀ v' r, vm0.execute (.Call 7) = some (v', r) →
        r = .cont ∧ v'.stack_ptr = vm0.stack_ptr + 1 ∧
          v'.stack vm0.stack_ptr = (vm0.thread_data vm0.current_thread).pc ∧
          (v'.thread_data vm0.current_thread).pc = 7 ∧
          ∀ i, i ≠ vm0.stack_ptr → v'.stack i = vm0.stack i) ∧
      (vm0.execute .Ret = none ↔ vm0.stack_ptr = 0) ∧
      (∀ v' r, vm0.execute .Ret = some (v', r) →
        r = .cont ∧ v'.stack_ptr = vm0.stack_ptr - 1 ∧
          (v'.thread_data vm0.current_thread).pc = vm0.stack (vm0.stack_ptr - 1) ∧
          v'.stack = vm0.stack) ∧
      (vm0.stack_ptr ≤ 0xff →
        (∀ v' r, vm0.execute (.Call 7) = some (v', r) →
          v'.stack_ptr ≤ 0xff ∧ vm0.stack_ptr < 0x100) ∧
        ∀ v' r, vm0.execute .Ret = some (v', r) →
          v'.stack_ptr ≤ 0xff ∧ vm0.stack_ptr - 1 < 0x100) :=
  ⟨fun h => absurd ((c8_theorem vm0 7).1.mp h) (by decide), c8_theorem vm0 7⟩



/-- Claim C9. -/
theorem c9_theorem (fuel1 fuel2 : Nat) (mem1 mem2 : List Nat) (vm1 vm2 : Vm)
    (in1 in2 : InputState) (h1 : vm1 = vm2) (h2 : mem1 = mem2) (h3 : in1 = in2)
    (h4 : fuel1 = fuel2) :
    (Vm.execute_frame fuel1 mem1 vm1 in1).result =
        (Vm.execute_frame fuel2 mem2 vm2 in2).result ∧
      (Vm.execute_frame fuel1 mem1 vm1 in1).commands =
        (Vm.execute_frame fuel2 mem2 vm2 in2).commands := by
  subst h1; subst h2; subst h3; subst h4
  exact ⟨rfl, rfl⟩

/-- Claim C9 witness. -/
theorem c9_witness :
    vm0 = vm0 ∧ ([0x11] : List Nat) = [0x11] ∧ inputNone = inputNone ∧ (3 : Nat) = 3 ∧
      ((Vm.execute_frame 3 [0x11] vm0 inputNone).result =
          (Vm.execute_frame 3 [0x11] vm0 inputNone).result ∧
        (Vm.execute_frame 3 [0x11] vm0 inputNone).commands =
          (Vm.execute_frame 3 [0x11] vm0 inputNone).commands) :=
  ⟨rfl, rfl, rfl, rfl,
    c9_theorem 3 3 [0x11] [0x11] vm0 vm0 inputNone inputNone rfl rfl rfl rfl⟩

theorem byte_and_0x80 (n : Nat) (h : n < 256) : n &&& 0x80 ≠ 0 ↔ 0x80 ≤ n := by
  interval_cases n <;> decide

theorem decode_bit7 (mem : List Nat) (addr op b1 x0 y0 : Nat)
    (hop : mem[addr]? = some op) (hlt : op < 256) (h7 : op &&& 0x80 ≠ 0)
    (hb : mem[addr + 1]? = some b1) (hx : mem[addr + 2]? = some x0)
    (hy : mem[addr + 3]? = some y0) :
    drawZoom (Vm.decode mem addr) = some (.Const 0x40) := by
  have h128 : 0x80 ≤ op := (byte_and_0x80 op hlt).mp h7
  have hr0 : readU8 mem addr = some (op, addr + 1) := by
    unfold readU8; rw [hop]; simp [Nat.mod_eq_of_lt hlt]
  have hr1 : readU8 mem (addr + 1) = some (b1 % 256, addr + 1 + 1) := by
    unfold readU8; rw [hb]
  have hr2 : readU8 mem (addr + 1 + 1) = some (x0 % 256, addr + 1 + 1 + 1) := by
    have he : addr + 1 + 1 = addr + 2 := by omega
    rw [he]; unfold readU8; rw [hx]
  have hr3 : readU8 mem (addr + 1 + 1 + 1) = some (y0 % 256, addr + 1 + 1 + 1 + 1) := by
    have he : addr + 1 + 1 + 1 = addr + 3 := by omega
    rw [he]; unfold readU8; rw [hy]
  unfold Vm.decode
  rw [hr0]
  simp only [Option.bind_eq_bind, Option.some_bind]
  iterate 27 rw [if_neg (show op ≠ _ by omega)]
  rw [if_pos h7]
  rw [hr1]
  simp only [Option.some_bind]
  rw [hr2]
  simp only [Option.some_bind]
  rw [hr3]
  simp only [Option.some_bind]
  rfl



theorem video_draw_cinematic (fuel : Nat) (cmd : DrawCommand) (buffer : List Nat)
    (alt : Option (List Nat)) (hsrc : cmd.polygon.source = .Cinematic) :
    video_draw fuel cmd (some buffer) alt =
      do_draw fuel 0xff cmd.x cmd.y (Int.tdiv cmd.zoom 64) cmd.polygon.buffer_offset buffer := by
  unfold video_draw
  rw [hsrc]

theorem do_draw_bounds (fuel : Nat) (color : Nat) (x y zoom : Int) (offset : Nat)
    (buffer : List Nat) (m xb yb np : Nat) (evs : List GfxEvent)
    (hm : buffer[offset]? = some m) (hmlt : m < 256) (hge : 0xc0 ≤ m)
    (hxb : buffer[offset + 1]? = some xb) (hxblt : xb < 256)
    (hyb : buffer[offset + 2]? = some yb) (hyblt : yb < 256)
    (hnp : buffer[offset + 3]? = some np)
    (h : do_draw (fuel + 1) color x y zoom offset buffer = some evs) :
    evs = [] ↔ (x - Int.tdiv ((xb : Int) * zoom) 2 > 319 ∨
      x + Int.tdiv ((xb : Int) * zoom) 2 < 0 ∨
      y - Int.tdiv ((yb : Int) * zoom) 2 > 199 ∨
      y + Int.tdiv ((yb : Int) * zoom) 2 < 0) := by
  have hr0 : readU8 buffer offset = some (m, offset + 1) := by
    unfold readU8; rw [hm]; simp [Nat.mod_eq_of_lt hmlt]
  have hr1 : readU8 buffer (offset + 1) = some (xb, offset + 1 + 1) := by
    unfold readU8; rw [hxb]; simp [Nat.mod_eq_of_lt hxblt]
  have hr2 : readU8 buffer (offset + 1 + 1) = some (yb, offset + 1 + 1 + 1) := by
    have he : offset + 1 + 1 = offset + 2 := by omega
    rw [he]; unfold readU8; rw [hyb]; simp [Nat.mod_eq_of_lt hyblt]
  have hr3 : readU8 buffer (offset + 1 + 1 + 1) = some (np % 256, offset + 1 + 1 + 1 + 1) := by
    have he : offset + 1 + 1 + 1 = offset + 3 := by omega
    rw [he]; unfold readU8; rw [hnp]
  unfold do_draw at h
  rw [hr0] at h
  simp only [Option.bind_eq_bind, Option.some_bind] at h
  rw [if_pos hge, hr1] at h
  simp only [Option.some_bind] at h
  rw [hr2] at h
  simp only [Option.some_bind] at h
  rw [hr3] at h
  simp only [Option.some_bind] at h
  by_cases hcull : (x - Int.tdiv ((xb : Int) * zoom) 2 > 319 ∨
      x + Int.tdiv ((xb : Int) * zoom) 2 < 0 ∨
      y - Int.tdiv ((yb : Int) * zoom) 2 > 199 ∨
      y + Int.tdiv ((yb : Int) * zoom) 2 < 0)
  · rw [if_pos hcull] at h
    have : evs = [] := (Option.some.inj h).symm
    simp [this, hcull]
  · rw [if_neg hcull] at h
    have hne : evs ≠ [] := by
      intro hevs
      rw [hevs] at h
      by_cases hdeg : ((xb : Int) * zoom = 0 ∧ (yb : Int) * zoom = 1 ∧ np % 256 = 4)
      · rw [if_pos hdeg] at h
        exact absurd (Option.some.inj h) (by simp)
      · rw [if_neg hdeg] at h
        cases hp : points_loop buffer zoom (x - Int.tdiv ((xb : Int) * zoom) 2)
            (y - Int.tdiv ((yb : Int) * zoom) 2) ((xb : Int) * zoom) (np % 256) 0 (np % 256)
            (offset + 1 + 1 + 1 + 1) (List.replicate 50 ((0 : Int), (0 : Int))) with
        | none => rw [hp] at h; exact absurd h (by simp)
        | some q =>
          rw [hp] at h
          simp only [Option.some_bind] at h
          exact absurd (Option.some.inj h) (by simp)
    exact iff_of_false hne hcull

/-- Claim C5 counterexample. -/
theorem c5_counterexample :
    video_draw 2 c5Command (some c5Buffer) none ≠
      video_draw_claim 2 c5Command (some c5Buffer) none := by decide

/-- Claim C5 amended. -/
theorem c5_theorem :
    (∀ mem addr op b1 x0 y0, mem[addr]? = some op → op < 256 → op &&& 0x80 ≠ 0 →
      mem[addr + 1]? = some b1 → mem[addr + 2]? = some x0 → mem[addr + 3]? = some y0 →
      drawZoom (Vm.decode mem addr) = some (.Const 0x40)) ∧
      (∀ fuel cmd buffer alt, cmd.polygon.source = .Cinematic →
        video_draw fuel cmd (some buffer) alt =
          do_draw fuel 0xff cmd.x cmd.y (Int.tdiv cmd.zoom 64)
            cmd.polygon.buffer_offset buffer) ∧
      ∀ (fuel m xb yb np : Nat) (cmd : DrawCommand) (buffer : List Nat)
        (alt : Option (List Nat)) (evs : List GfxEvent), cmd.polygon.source = .Cinematic →
        buffer[cmd.polygon.buffer_offset]? = some m → m < 256 → 0xc0 ≤ m →
        buffer[cmd.polygon.buffer_offset + 1]? = some xb → xb < 256 →
        buffer[cmd.polygon.buffer_offset + 2]? = some yb → yb < 256 →
        buffer[cmd.polygon.buffer_offset + 3]? = some np →
        video_draw (fuel + 1) cmd (some buffer) alt = some evs →
        (evs = [] ↔ (cmd.x - Int.tdiv ((xb : Int) * Int.tdiv cmd.zoom 64) 2 > 319 ∨
          cmd.x + Int.tdiv ((xb : Int) * Int.tdiv cmd.zoom 64) 2 < 0 ∨
          cmd.y - Int.tdiv ((yb : Int) * Int.tdiv cmd.zoom 64) 2 > 199 ∨
          cmd.y + Int.tdiv ((yb : Int) * Int.tdiv cmd.zoom 64) 2 < 0)) := by
  refine ⟨decode_bit7, video_draw_cinematic, ?_⟩
  intro fuel m xb yb np cmd buffer alt evs hsrc hm hmlt hge hxb hxblt hyb hyblt hnp h
  rw [video_draw_cinematic (fuel + 1) cmd buffer alt hsrc] at h
  exact do_draw_bounds fuel 0xff cmd.x cmd.y (Int.tdiv cmd.zoom 64)
    cmd.polygon.buffer_offset buffer m xb yb np evs hm hmlt hge hxb hxblt hyb hyblt hnp h

/-- Claim C5 witness. -/
theorem c5_witness :
    drawZoom (Vm.decode [0x80, 0, 10, 10] 0) = some (VarOrConst.Const 0x40) ∧
      (c5Events = [] ↔ ((10 : Int) - Int.tdiv ((2 : Int) * Int.tdiv 0x40 64) 2 > 319 ∨
        (10 : Int) + Int.tdiv ((2 : Int) * Int.tdiv 0x40 64) 2 < 0 ∨
        (10 : Int) - Int.tdiv ((0 : Int) * Int.tdiv 0x40 64) 2 > 199 ∨
        (10 : Int) + Int.tdiv ((0 : Int) * Int.tdiv 0x40 64) 2 < 0)) :=
  ⟨c5_theorem.1 [0x80, 0, 10, 10] 0 0x80 0 10 10 (by decide) (by decide) (by decide)
      (by decide) (by decide) (by decide),
    c5_theorem.2.2 1 0xC0 2 0 1 c5Command c5Buffer none c5Events (by decide) (by decide)
      (by decide) (by decide) (by decide) (by decide) (by decide) (by decide) (by decide)
      (by decide)⟩

theorem blit_emit (fuel : Nat) (st : VideoState) (res : VideoBuffers) (b : Nat) :
    ∃ st' evs, push_command fuel st res (.Blit ⟨b⟩) = some (st', evs) ∧
      st'.requested_palette = none ∧
      countSetPalette evs = (if st.requested_palette.isSome then 1 else 0) := by
  unfold push_command
  dsimp only
  cases hpal : st.requested_palette with
  | none =>
    by_cases hb1 : b = 0xff
    · refine ⟨_, _, rfl, ?_, ?_⟩ <;> simp [hb1, hpal, countSetPalette]
    · by_cases hb2 : b = 0xfe
      · refine ⟨_, _, rfl, ?_, ?_⟩ <;> simp [hb1, hb2, hpal, countSetPalette]
      · refine ⟨_, _, rfl, ?_, ?_⟩ <;> simp [hb1, hb2, hpal, countSetPalette]
  | some pal =>
    by_cases hb1 : b = 0xff
    · refine ⟨_, _, rfl, ?_, ?_⟩ <;> simp [hb1, hpal, countSetPalette]
    · by_cases hb2 : b = 0xfe
      · refine ⟨_, _, rfl, ?_, ?_⟩ <;> simp [hb1, hb2, hpal, countSetPalette]
      · refine ⟨_, _, rfl, ?_, ?_⟩ <;> simp [hb1, hb2, hpal, countSetPalette]

/-- Claim C6. -/
theorem c6_theorem (fuel : Nat) (st : VideoState) (pb : List Nat) (cin alt : Option (List Nat))
    (strs : List (Nat × String)) (pid b1 b2 : Nat)
    (hlen : pid * 32 + 32 ≤ pb.length) :
    ∃ st1 st2 st3 e2 e3,
      push_command fuel st ⟨some pb, cin, alt, strs⟩ (.Palette ⟨pid⟩) = some (st1, []) ∧
        push_command fuel st1 ⟨some pb, cin, alt, strs⟩ (.Blit ⟨b1⟩) = some (st2, e2) ∧
        push_command fuel st2 ⟨some pb, cin, alt, strs⟩ (.Blit ⟨b2⟩) = some (st3, e3) ∧
        countSetPalette [] = 0 ∧ countSetPalette e2 = 1 ∧ countSetPalette e3 = 0 := by
  have h1 : push_command fuel st ⟨some pb, cin, alt, strs⟩ (.Palette ⟨pid⟩) =
      some ({ st with requested_palette := some (compute_palette pb (pid * 32)) }, []) := by
    unfold push_command
    dsimp only
    rw [if_pos hlen]
  obtain ⟨st2, e2, h2, hrp2, hc2⟩ := blit_emit fuel
    { st with requested_palette := some (compute_palette pb (pid * 32)) }
    ⟨some pb, cin, alt, strs⟩ b1
  obtain ⟨st3, e3, h3, hrp3, hc3⟩ := blit_emit fuel st2 ⟨some pb, cin, alt, strs⟩ b2
  refine ⟨_, st2, st3, e2, e3, h1, h2, h3, rfl, ?_, ?_⟩
  · rw [hc2]; simp
  · rw [hc3, hrp2]; simp

/-- Claim C6 witness. -/
theorem c6_witness :
    0 * 32 + 32 ≤ (List.replicate 32 (0 : Nat)).length ∧
      (∃ st1 st2 st3 e2 e3,
        push_command 1 VideoState.new ⟨some (List.replicate 32 0), none, none, []⟩
            (.Palette ⟨0⟩) = some (st1, []) ∧
          push_command 1 st1 ⟨some (List.replicate 32 0), none, none, []⟩
            (.Blit ⟨0xff⟩) = some (st2, e2) ∧
          push_command 1 st2 ⟨some (List.replicate 32 0), none, none, []⟩
            (.Blit ⟨0xfe⟩) = some (st3, e3) ∧
          countSetPalette [] = 0 ∧ countSetPalette e2 = 1 ∧ countSetPalette e3 = 0) :=
  ⟨by decide,
    c6_theorem 1 VideoState.new (List.replicate 32 0) none none [] 0 0xff 0xfe (by decide)⟩

end MassAw
